import Mathlib

/-!
# USB3 debug port library, DXE phase

A shallow embedding of
`SourceLevelDebugPkg/Library/DebugCommunicationLibUsb3/DebugCommunicationLibUsb3Dxe.c`.

The C functions become functions on an explicit `World` (the module globals, the
memory holding instance records, the HOB list, the system configuration table and
the set of open events).  Every call that leaves the file (boot services, the PCI
I/O protocol, the hardware bring-up routines, the timer) is appended to
`World.trace`, and what such a call answers is read from an oracle that is given the
trace so far, so an external service may answer differently every time it is called.

Machine words: addresses are `EFI_PHYSICAL_ADDRESS` (64 bit) and `UINTN` is taken to
be 64 bit wide (an X64 build); the places where the C code truncates are written
with an explicit `%`.

What is taken from the environment:
* `ASSERT` is a build switch (`Platform.assertEnabled`): built in, a failing assert
  stops the machine; built out, the line does nothing.
* `DEBUG` prints have no effect on the state and are left out.
* The entry points run one after the other, as the firmware delivers its callbacks:
  an external call does not call back into the library.
* The handles `LocateHandleBuffer` returns by protocol carry that protocol, so
  `HandleProtocol` and `GetLocation` succeed on them.
* The bring-up routines `DiscoverInitializeUsbDebugPort` and
  `InitializeUsbDebugHardware` rewrite the record they are given in any way.
-/

namespace Usb3Dxe

/-! ## Status codes -/

/-- EFI_STATUS read as a signed machine word (`INTN`). -/
abbrev EFI_STATUS := Int

/-- The success status. -/
def EFI_SUCCESS : EFI_STATUS := 0

/-- The `EFI_ERROR` test: the status, read as `INTN`, is negative. -/
def EFI_ERROR (Status : EFI_STATUS) : Bool := decide (Status < 0)

/-- The status `EFI_NOT_FOUND` (error bit of a 64 bit word, code 14). -/
def EFI_NOT_FOUND : EFI_STATUS := -(2 ^ 63 - 14)

/-! ## Data model -/

/-- The notification functions this file registers. -/
inductive NotifyFunction where
  | Usb3PciIoNotify
  | Usb3DxeSmmReadyToLockNotify
  deriving DecidableEq, Repr

/-- The protocol GUIDs this file listens for. -/
inductive ProtocolGuid where
  | gEfiPciIoProtocolGuid
  | gEfiDxeSmmReadyToLockProtocolGuid
  deriving DecidableEq, Repr

/-- One call that leaves the file, with its arguments and with what it answered.
`SetInNotify` records a store to the `InNotify` field made by a handler; the two
bring-up events record the value `InNotify` has when the bring-up routine is
entered. -/
inductive Event where
  | Map (This HostAddress NumberOfBytes : Nat) (Status : EFI_STATUS) (DeviceAddress : Nat)
  | AllocateBuffer (This Pages : Nat) (Status : EFI_STATUS) (HostAddress : Nat)
  | AllocatePages (Pages MaxAddress : Nat) (Status : EFI_STATUS) (Memory : Nat)
  | InstallConfigurationTable (Table : Nat) (Status : EFI_STATUS)
  | CreateEvent (Notify : NotifyFunction) (Status : EFI_STATUS) (Event : Nat)
  | RegisterProtocolNotify (Protocol : ProtocolGuid) (Event : Nat) (Status : EFI_STATUS)
  | CloseEvent (Event : Nat)
  | LocateHandleBuffer (Status : EFI_STATUS) (Count : Nat)
  | FreePool
  | SetInNotify (Value : Bool)
  | DiscoverInitializeUsbDebugPort (InNotify : Bool)
  | InitializeUsbDebugHardware (InNotify : Bool)
  | MicroSecondDelay (MicroSeconds : Nat)
  deriving DecidableEq, Repr

/-- The fields of `USB3_DEBUG_PORT_HANDLE` that this file reads or writes.  The type
is declared in `DebugCommunicationLibUsb3Internal.h`; the DMA buffer addresses are
the `EFI_PHYSICAL_ADDRESS` members `UrbIn.Data`, `TransferRingIn.RingSeg0`,
`TransferRingOut.RingSeg0`, `EventRing.EventRingSeg0`, `EventRing.ERSTBase` and
`DebugCapabilityContext`. -/
structure USB3_DEBUG_PORT_HANDLE where
  Initialized : Nat
  Ready : Bool
  FromHob : Bool
  InNotify : Bool
  PciIoEvent : Nat
  UrbInData : Nat
  TransferRingInRingSeg0 : Nat
  TransferRingOutRingSeg0 : Nat
  EventRingSeg0 : Nat
  ERSTBase : Nat
  DebugCapabilityContext : Nat
  deriving DecidableEq, Repr

/-- The record `ZeroMem` leaves behind. -/
def USB3_DEBUG_PORT_HANDLE.zero : USB3_DEBUG_PORT_HANDLE :=
  { Initialized := 0, Ready := false, FromHob := false, InNotify := false, PciIoEvent := 0,
    UrbInData := 0, TransferRingInRingSeg0 := 0, TransferRingOutRingSeg0 := 0,
    EventRingSeg0 := 0, ERSTBase := 0, DebugCapabilityContext := 0 }

/-- One `EFI_PCI_IO_PROTOCOL` interface: `This` is the address of the interface,
`GetLocation` its segment, bus, device and function numbers, `Map` answers a
bus-master common-buffer map request for a host address and a byte count with a
status and a device address, and `AllocateBuffer` answers a page request with a
status and the address it stored through the out-pointer (`none`: it stored
nothing).  `Map` and `AllocateBuffer` see the trace so far. -/
structure EFI_PCI_IO_PROTOCOL where
  This : Nat
  GetLocation : Nat × Nat × Nat × Nat
  Map : List Event → Nat → Nat → EFI_STATUS × Nat
  AllocateBuffer : List Event → Nat → EFI_STATUS × Option Nat

/-- What the file takes from outside: the constants of
`DebugCommunicationLibUsb3Internal.h` and the platform configuration database, the
way `ASSERT` is built, and the answers of the boot services and of the hardware
bring-up routines of `DebugCommunicationLibUsb3Common.c`.

`assertEnabled` is the build switch of `DebugLib`: when it is set a failing `ASSERT`
stops the machine, when it is clear (`MDEPKG_NDEBUG`, or asserts masked off in
`PcdDebugPropertyMask`) the `ASSERT` line does nothing. -/
structure Platform where
  assertEnabled : Bool
  gUsb3DbgGuid : Nat
  PcdUsbXhciPciAddress : Nat
  USB3DBG_UNINITIALIZED : Nat
  sizeofUSB3_DEBUG_PORT_HANDLE : Nat
  XHCI_DEBUG_DEVICE_MAX_PACKET_SIZE : Nat
  USB3_DEBUG_PORT_WRITE_MAX_PACKET_SIZE : Nat
  sizeofTRB_TEMPLATE : Nat
  TR_RING_TRB_NUMBER : Nat
  EVENT_RING_TRB_NUMBER : Nat
  sizeofEVENT_RING_SEG_TABLE_ENTRY : Nat
  ERST_NUMBER : Nat
  sizeofXHC_DC_CONTEXT : Nat
  STRING0_DESC_LEN : Nat
  MANU_DESC_LEN : Nat
  PRODUCT_DESC_LEN : Nat
  SERIAL_DESC_LEN : Nat
  AllocatePages : List Event → Nat → Nat → EFI_STATUS × Nat
  InstallConfigurationTableStatus : List Event → Nat → EFI_STATUS
  CreateEvent : List Event → NotifyFunction → EFI_STATUS × Nat
  RegisterProtocolNotify : List Event → ProtocolGuid → Nat → EFI_STATUS
  LocateHandleBuffer : List Event → EFI_STATUS × Option (List EFI_PCI_IO_PROTOCOL)
  DiscoverInitializeUsbDebugPort : List Event → USB3_DEBUG_PORT_HANDLE → USB3_DEBUG_PORT_HANDLE
  InitializeUsbDebugHardware : List Event → USB3_DEBUG_PORT_HANDLE → USB3_DEBUG_PORT_HANDLE

/-- The state the file works on.  `mUsb3Instance` is a pointer (0 is `NULL`) into
`instances`, the memory read as instance records; `String0DescAddress a` is the
`DbcInfoContext.String0DescAddress` member of the `XHC_DC_CONTEXT` at address `a`;
`hobList` holds, for every GUID HOB, its name and the address of the HOB;
`configTable` is the system configuration table; `openEvents` are the events
created and not yet closed. -/
structure World where
  gBS : Bool
  mUsb3Instance : Nat
  mUsb3PciIo : Option EFI_PCI_IO_PROTOCOL
  instances : Nat → USB3_DEBUG_PORT_HANDLE
  String0DescAddress : Nat → Nat
  hobList : List (Nat × Nat)
  configTable : List (Nat × Nat)
  openEvents : List Nat
  trace : List Event

/-- Append one event to the trace. -/
def World.log (w : World) (e : Event) : World :=
  { w with trace := w.trace ++ [e] }

/-- Store an instance record at an address. -/
def World.setInstance (w : World) (Address : Nat) (h : USB3_DEBUG_PORT_HANDLE) : World :=
  { w with instances := Function.update w.instances Address h }

/-- Why a function did not return. -/
inductive Halt where
  | AssertionFailed
  | NullDereference
  deriving DecidableEq, Repr

/-- The result of running a C function: it returns a value in a new world, or the
machine stops inside it. -/
inductive Outcome (α : Type) where
  | ret (Value : α) (w : World)
  | halt (Reason : Halt) (w : World)

/-- Sequencing: the rest of the function runs only if the first part returned. -/
def Outcome.bind {α β : Type} (m : Outcome α) (f : α → World → Outcome β) : Outcome β :=
  match m with
  | .ret v w => f v w
  | .halt r w => .halt r w

/-- The world an outcome ends in. -/
def Outcome.world {α : Type} : Outcome α → World
  | .ret _ w => w
  | .halt _ w => w

/-- Whether the function returned. -/
def Outcome.returned {α : Type} : Outcome α → Bool
  | .ret _ _ => true
  | .halt _ _ => false

/-- The `ASSERT` of `DebugLib`: stops the machine when asserts are built in and the
condition is false, and does nothing otherwise. -/
def ASSERT (p : Platform) (Condition : Bool) (w : World) : Outcome Unit :=
  if p.assertEnabled && !Condition then .halt .AssertionFailed w else .ret () w

/-- The macro `ASSERT_EFI_ERROR (Status)`: asserts that the status is not an error. -/
def ASSERT_EFI_ERROR (p : Platform) (Status : EFI_STATUS) (w : World) : Outcome Unit :=
  ASSERT p (!EFI_ERROR Status) w

/-- The macro `EFI_SIZE_TO_PAGES` of `UefiBaseType.h`. -/
def EFI_SIZE_TO_PAGES (Size : Nat) : Nat :=
  (Size >>> 12) + (if Size &&& 0xFFF ≠ 0 then 1 else 0)

/-- The macro `EFI_PAGES_TO_SIZE` of `UefiBaseType.h`, on a 64 bit `UINTN`. -/
def EFI_PAGES_TO_SIZE (Pages : Nat) : Nat :=
  (Pages <<< 12) % 2 ^ 64

/-- The constant `SIZE_4GB`. -/
def SIZE_4GB : Nat := 0x100000000

/-! ## Boot services the file calls -/

/-- The boot service `CloseEvent`: the event is no longer open. -/
def CloseEvent (Event : Nat) (w : World) : World :=
  { (w.log (.CloseEvent Event)) with openEvents := w.openEvents.erase Event }

/-- Modelled from the spec: `EfiGetSystemConfigurationTable` lives in `UefiLib.c`,
which is not among the sources.  It is the registry lookup `GetTable(identity) ->
record?`: the first entry of the configuration table under the GUID, stored through
the out-pointer with `EFI_SUCCESS`; when there is none the out-pointer is set to
`NULL` and the status is `EFI_NOT_FOUND`. -/
def EfiGetSystemConfigurationTable (TableGuid : Nat) (w : World) : EFI_STATUS × Nat :=
  match w.configTable.find? (fun e => e.1 == TableGuid) with
  | some e => (EFI_SUCCESS, e.2)
  | none => (EFI_NOT_FOUND, 0)

/-- Modelled from the spec: the boot service `InstallConfigurationTable` is
implemented by the DXE core, which is not among the sources.  It is the registry
operation `PublishTable(identity, record)`: when the platform answers with a
non-error status the table holds the record under the GUID (replacing an older
entry under it), and on an error the table is unchanged. -/
def InstallConfigurationTable (p : Platform) (Guid Table : Nat) (w : World) :
    EFI_STATUS × World :=
  let Status := p.InstallConfigurationTableStatus w.trace Table
  let w1 := w.log (.InstallConfigurationTable Table Status)
  if EFI_ERROR Status then (Status, w1)
  else (Status, { w1 with
    configTable := (Guid, Table) :: w1.configTable.filter (fun e => e.1 != Guid) })

/-- Modelled from the spec: `GetFirstGuidHob` lives in `HobLib`, which is not among
the sources.  It is the lookup in the persisted record list created by the early
phase: the address of the first GUID HOB with the given name, or `NULL`. -/
def GetFirstGuidHob (Guid : Nat) (w : World) : Nat :=
  match w.hobList.find? (fun e => e.1 == Guid) with
  | some e => e.2
  | none => 0

/-- The macro `GET_GUID_HOB_DATA`: the data follows the `EFI_HOB_GUID_TYPE` header
(8 bytes of generic header and a 16 byte GUID). -/
def GET_GUID_HOB_DATA (Hob : Nat) : Nat := Hob + 24

/-! ## The functions of the file -/

/-- C function `Usb3NamedEventListen`: create a notify-signal event and register it
for installations of the protocol `Name`.  The three leading asserts check constant
arguments of the two call sites and hold there.  Returns the status of
`RegisterProtocolNotify` and the content of `*Event`. -/
def Usb3NamedEventListen (p : Platform) (Name : ProtocolGuid) (Notify : NotifyFunction)
    (w : World) : Outcome (EFI_STATUS × Nat) :=
  let c := p.CreateEvent w.trace Notify
  let w1 := w.log (.CreateEvent Notify c.1 c.2)
  let w2 := if EFI_ERROR c.1 then w1 else { w1 with openEvents := c.2 :: w1.openEvents }
  (ASSERT_EFI_ERROR p c.1 w2).bind fun _ w3 =>
    let Status := p.RegisterProtocolNotify w3.trace Name c.2
    let w4 := w3.log (.RegisterProtocolNotify Name c.2 Status)
    (ASSERT_EFI_ERROR p Status w4).bind fun _ w5 => .ret (Status, c.2) w5

/-- C function `Usb3MapOneDmaBuffer`: one common-buffer map request; both results are
only checked by `ASSERT`, and nothing is returned. -/
def Usb3MapOneDmaBuffer (p : Platform) (PciIo : EFI_PCI_IO_PROTOCOL)
    (Address NumberOfBytes : Nat) (w : World) : Outcome Unit :=
  let r := PciIo.Map w.trace Address NumberOfBytes
  let w1 := w.log (.Map PciIo.This Address NumberOfBytes r.1 r.2)
  (ASSERT_EFI_ERROR p r.1 w1).bind fun _ w2 => ASSERT p (r.2 == Address) w2

/-- C function `Usb3MapDmaBuffers`: map the seven buffers the instance refers to. -/
def Usb3MapDmaBuffers (p : Platform) (Instance : Nat) (PciIo : EFI_PCI_IO_PROTOCOL)
    (w : World) : Outcome Unit :=
  (Usb3MapOneDmaBuffer p PciIo (w.instances Instance).UrbInData
    (p.XHCI_DEBUG_DEVICE_MAX_PACKET_SIZE * 2 + p.USB3_DEBUG_PORT_WRITE_MAX_PACKET_SIZE)
    w).bind fun _ w =>
  (Usb3MapOneDmaBuffer p PciIo (w.instances Instance).TransferRingInRingSeg0
    (p.sizeofTRB_TEMPLATE * p.TR_RING_TRB_NUMBER) w).bind fun _ w =>
  (Usb3MapOneDmaBuffer p PciIo (w.instances Instance).TransferRingOutRingSeg0
    (p.sizeofTRB_TEMPLATE * p.TR_RING_TRB_NUMBER) w).bind fun _ w =>
  (Usb3MapOneDmaBuffer p PciIo (w.instances Instance).EventRingSeg0
    (p.sizeofTRB_TEMPLATE * p.EVENT_RING_TRB_NUMBER) w).bind fun _ w =>
  (Usb3MapOneDmaBuffer p PciIo (w.instances Instance).ERSTBase
    (p.sizeofEVENT_RING_SEG_TABLE_ENTRY * p.ERST_NUMBER) w).bind fun _ w =>
  (Usb3MapOneDmaBuffer p PciIo (w.instances Instance).DebugCapabilityContext
    p.sizeofXHC_DC_CONTEXT w).bind fun _ w =>
  Usb3MapOneDmaBuffer p PciIo
    (w.String0DescAddress (w.instances Instance).DebugCapabilityContext)
    (p.STRING0_DESC_LEN + p.MANU_DESC_LEN + p.PRODUCT_DESC_LEN + p.SERIAL_DESC_LEN) w

/-- The store `mUsb3Instance->InNotify = Value` of the two handlers. -/
def setInNotify (Value : Bool) (w : World) : World :=
  (w.log (.SetInNotify Value)).setInstance w.mUsb3Instance
    { w.instances w.mUsb3Instance with InNotify := Value }

/-- The call `InitializeUsbDebugHardware (Instance)`: the routine is outside the
file; it rewrites the record in place. -/
def callInitializeUsbDebugHardware (p : Platform) (Instance : Nat) (w : World) : World :=
  (w.log (.InitializeUsbDebugHardware (w.instances Instance).InNotify)).setInstance Instance
    (p.InitializeUsbDebugHardware w.trace (w.instances Instance))

/-- The call `DiscoverInitializeUsbDebugPort (Instance)` on a record in memory. -/
def callDiscoverInitializeUsbDebugPort (p : Platform) (Instance : Nat) (w : World) : World :=
  (w.log (.DiscoverInitializeUsbDebugPort (w.instances Instance).InNotify)).setInstance
    Instance (p.DiscoverInitializeUsbDebugPort w.trace (w.instances Instance))

/-- C function `Usb3DxeSmmReadyToLockNotify`.  With asserts built out a `NULL`
`mUsb3Instance` is written through, which stops the machine as well. -/
def Usb3DxeSmmReadyToLockNotify (p : Platform) (Event : Nat) (w : World) : Outcome Unit :=
  (ASSERT p (decide (w.mUsb3Instance ≠ 0)) w).bind fun _ w =>
  if w.mUsb3Instance = 0 then .halt .NullDereference w
  else
    let w1 := setInNotify true w
    let w2 := callInitializeUsbDebugHardware p w1.mUsb3Instance w1
    let w3 := w2.log (.MicroSecondDelay 1000000)
    let w4 := setInNotify false w3
    .ret () (CloseEvent Event w4)

/-- The `PciAddress` of `Usb3PciIoNotify`: three `UINTN` shifts, or-ed and cast to
`UINT32`. -/
def PciAddress (Location : Nat × Nat × Nat × Nat) : Nat :=
  (((Location.2.1 <<< 20) % 2 ^ 64) ||| ((Location.2.2.1 <<< 15) % 2 ^ 64)
    ||| ((Location.2.2.2 <<< 12) % 2 ^ 64)) % 2 ^ 32

/-- The body of the `if (PciAddress == PcdGet32 (PcdUsbXhciPciAddress))` of
`Usb3PciIoNotify`, up to the `break`.  The test `Usb3GetIoMmu != NULL` compares the
address of a function of this file with `NULL` and is always true. -/
def Usb3PciIoNotify.found (p : Platform) (Event : Nat) (PciIo : EFI_PCI_IO_PROTOCOL)
    (w : World) : Outcome Unit :=
  (ASSERT p (decide (w.mUsb3Instance ≠ 0)) w).bind fun _ w =>
  if w.mUsb3Instance = 0 then .halt .NullDereference w
  else
    (Usb3MapDmaBuffers p w.mUsb3Instance PciIo (setInNotify true w)).bind fun _ w1 =>
    let w2 := setInNotify false w1
    if (w2.instances w2.mUsb3Instance).FromHob then
      (Usb3NamedEventListen p .gEfiDxeSmmReadyToLockProtocolGuid
        .Usb3DxeSmmReadyToLockNotify { w2 with mUsb3PciIo := some PciIo }).bind fun _ w3 =>
      .ret () (CloseEvent Event w3)
    else .ret () (CloseEvent Event w2)

/-- The `for` loop of `Usb3PciIoNotify` over the handle buffer.  Every handle of the
buffer carries the PCI I/O protocol (the buffer was located by that protocol), so
`HandleProtocol` and `GetLocation` succeed and the list holds the interfaces. -/
def Usb3PciIoNotify.loop (p : Platform) (Event : Nat) :
    List EFI_PCI_IO_PROTOCOL → World → Outcome Unit
  | [], w => .ret () w
  | PciIo :: rest, w =>
    if PciAddress PciIo.GetLocation = p.PcdUsbXhciPciAddress then
      Usb3PciIoNotify.found p Event PciIo w
    else Usb3PciIoNotify.loop p Event rest w

/-- C function `Usb3PciIoNotify`. -/
def Usb3PciIoNotify (p : Platform) (Event : Nat) (w : World) : Outcome Unit :=
  let r := p.LocateHandleBuffer w.trace
  let w1 := w.log (.LocateHandleBuffer r.1 (r.2.getD []).length)
  match r.2 with
  | none => .ret () w1
  | some PciIoHandleBuffer =>
    if !EFI_ERROR r.1 && PciIoHandleBuffer.length != 0 then
      (Usb3PciIoNotify.loop p Event PciIoHandleBuffer w1).bind fun _ w2 =>
      .ret () (w2.log .FreePool)
    else .ret () w1

/-- The value of `Instance` at the label `Done` of `GetUsb3DebugPortInstance`: the
cached pointer, else the data of the first GUID HOB of the debug port, else `NULL`. -/
def GetUsb3DebugPortInstance.Instance (p : Platform) (w : World) : Nat :=
  if w.mUsb3Instance ≠ 0 then w.mUsb3Instance
  else if GetFirstGuidHob p.gUsb3DbgGuid w ≠ 0 then
    GET_GUID_HOB_DATA (GetFirstGuidHob p.gUsb3DbgGuid w)
  else 0

/-- C function `GetUsb3DebugPortInstance`. -/
def GetUsb3DebugPortInstance (p : Platform) (w : World) : Nat × World :=
  let Instance := GetUsb3DebugPortInstance.Instance p w
  if Instance ≠ 0 ∧ (w.instances Instance).InNotify = false then
    (Instance, callDiscoverInitializeUsbDebugPort p Instance w)
  else (Instance, w)

/-- C function `Usb3AllocateDmaBuffer`: returns the status of `AllocateBuffer` and the
content of `*Address`. -/
def Usb3AllocateDmaBuffer (p : Platform) (PciIo : EFI_PCI_IO_PROTOCOL) (Pages : Nat)
    (w : World) : Outcome (EFI_STATUS × Nat) :=
  let r := PciIo.AllocateBuffer w.trace Pages
  let Address := r.2.getD 0
  let w1 := w.log (.AllocateBuffer PciIo.This Pages r.1 Address)
  if !EFI_ERROR r.1 then
    (Usb3MapOneDmaBuffer p PciIo Address (EFI_PAGES_TO_SIZE Pages) w1).bind fun _ w2 =>
    .ret (r.1, Address) w2
  else .ret (r.1, Address) w1

/-- C function `AllocateAlignBuffer`: returns `Buf` (0 is `NULL`). -/
def AllocateAlignBuffer (p : Platform) (BufferSize : Nat) (w : World) : Outcome Nat :=
  if w.gBS then
    match w.mUsb3PciIo with
    | some PciIo =>
      (Usb3AllocateDmaBuffer p PciIo (EFI_SIZE_TO_PAGES BufferSize) w).bind fun r w1 =>
      .ret r.2 w1
    | none =>
      let a := p.AllocatePages w.trace (EFI_SIZE_TO_PAGES BufferSize) 0xFFFFFFFF
      let w1 := w.log (.AllocatePages (EFI_SIZE_TO_PAGES BufferSize) 0xFFFFFFFF a.1 a.2)
      if !EFI_ERROR a.1 then .ret a.2 w1 else .ret 0 w1
  else .ret 0 w

/-- The label `Done` of the constructor: register the appearance watch when the
instance is ready and has none. -/
def DebugCommunicationUsb3DxeConstructor.Done (p : Platform) (w : World) :
    Outcome EFI_STATUS :=
  if w.mUsb3Instance ≠ 0 ∧ (w.instances w.mUsb3Instance).Ready = true
      ∧ (w.instances w.mUsb3Instance).PciIoEvent = 0 then
    (Usb3NamedEventListen p .gEfiPciIoProtocolGuid .Usb3PciIoNotify w).bind fun r w1 =>
    if !EFI_ERROR r.1 then
      .ret EFI_SUCCESS (w1.setInstance w1.mUsb3Instance
        { w1.instances w1.mUsb3Instance with PciIoEvent := r.2 })
    else .ret EFI_SUCCESS w1
  else .ret EFI_SUCCESS w

/-- The part of the constructor between the failed table lookup and the label
`Done`: bring up a fresh local `UsbDbg` when no instance was located, allocate pages
below 4 GiB, copy the instance there, cache the copy and install it in the
configuration table. -/
def DebugCommunicationUsb3DxeConstructor.Publish (p : Platform) (Instance : Nat)
    (w1 : World) : Outcome EFI_STATUS :=
  let UsbDbg := p.DiscoverInitializeUsbDebugPort w1.trace
    { USB3_DEBUG_PORT_HANDLE.zero with Initialized := p.USB3DBG_UNINITIALIZED }
  let w2 := if Instance = 0 then w1.log (.DiscoverInitializeUsbDebugPort false) else w1
  let a := p.AllocatePages w2.trace (EFI_SIZE_TO_PAGES p.sizeofUSB3_DEBUG_PORT_HANDLE) SIZE_4GB
  let w3 := w2.log
    (.AllocatePages (EFI_SIZE_TO_PAGES p.sizeofUSB3_DEBUG_PORT_HANDLE) SIZE_4GB a.1 a.2)
  if EFI_ERROR a.1 then .ret a.1 w3
  else
    let Address := a.2
    let w4 := w3.setInstance Address (if Instance = 0 then UsbDbg else w3.instances Instance)
    let w5 := { w4 with mUsb3Instance := Address }
    let i := InstallConfigurationTable p p.gUsb3DbgGuid w5.mUsb3Instance w5
    if EFI_ERROR i.1 then .ret i.1 i.2
    else DebugCommunicationUsb3DxeConstructor.Done p i.2

/-- C function `DebugCommunicationUsb3DxeConstructor`. -/
def DebugCommunicationUsb3DxeConstructor (p : Platform) (w : World) : Outcome EFI_STATUS :=
  let l := GetUsb3DebugPortInstance p w
  let Instance := l.1
  let g := EfiGetSystemConfigurationTable p.gUsb3DbgGuid l.2
  let w1 := { l.2 with mUsb3Instance := g.2 }
  if !EFI_ERROR g.1 then DebugCommunicationUsb3DxeConstructor.Done p w1
  else DebugCommunicationUsb3DxeConstructor.Publish p Instance w1

/-- C function `DebugCommunicationUsb3DxeDestructor`. -/
def DebugCommunicationUsb3DxeDestructor (w : World) : EFI_STATUS × World :=
  if w.mUsb3Instance ≠ 0 ∧ (w.instances w.mUsb3Instance).PciIoEvent ≠ 0 then
    let w1 := CloseEvent (w.instances w.mUsb3Instance).PciIoEvent w
    (EFI_SUCCESS, w1.setInstance w1.mUsb3Instance
      { w1.instances w1.mUsb3Instance with PciIoEvent := 0 })
  else (EFI_SUCCESS, w)

/-! ## Concrete platforms and worlds used to evaluate the code -/

/-- The value a returning outcome carries. -/
def Outcome.value? {α : Type} : Outcome α → Option α
  | .ret v _ => some v
  | .halt _ _ => none

/-- The events a run appended to the trace it started from. -/
def newEvents (before after : World) : List Event :=
  after.trace.drop before.trace.length

/-- A PCI I/O interface at bus 0, device 29, function 0 whose `Map` is the identity
and whose `AllocateBuffer` hands out address `0x2000`. -/
def identityPciIo : EFI_PCI_IO_PROTOCOL :=
  { This := 7, GetLocation := (0, 0, 29, 0),
    Map := fun _ Host _ => (EFI_SUCCESS, Host),
    AllocateBuffer := fun _ _ => (EFI_SUCCESS, some 0x2000) }

/-- The same interface behind a remapping unit: `Map` succeeds but reports a device
address one page above the host address. -/
def shiftingPciIo : EFI_PCI_IO_PROTOCOL :=
  { identityPciIo with Map := fun _ Host _ => (EFI_SUCCESS, Host + 0x1000) }

/-- The same interface with a `Map` that fails (`EFI_OUT_OF_RESOURCES`). -/
def failingPciIo : EFI_PCI_IO_PROTOCOL :=
  { identityPciIo with Map := fun _ _ _ => (-(2 ^ 63 - 9), 0) }

/-- A platform with the constants of the internal header, asserts built in, the
expected controller at bus 0, device 29, function 0, boot services that succeed
(pages at `0x9000`, the appearance event `0x50`, the lock event `0x51`), `identityPciIo` as the only PCI I/O
handle, and bring-up routines that mark the record ready. -/
def demoPlatform : Platform :=
  { assertEnabled := true
    gUsb3DbgGuid := 0xB2A56F4D
    PcdUsbXhciPciAddress := 29 <<< 15
    USB3DBG_UNINITIALIZED := 255
    sizeofUSB3_DEBUG_PORT_HANDLE := 256
    XHCI_DEBUG_DEVICE_MAX_PACKET_SIZE := 0x400
    USB3_DEBUG_PORT_WRITE_MAX_PACKET_SIZE := 0x08
    sizeofTRB_TEMPLATE := 16
    TR_RING_TRB_NUMBER := 0x100
    EVENT_RING_TRB_NUMBER := 0x200
    sizeofEVENT_RING_SEG_TABLE_ENTRY := 16
    ERST_NUMBER := 1
    sizeofXHC_DC_CONTEXT := 192
    STRING0_DESC_LEN := 4
    MANU_DESC_LEN := 12
    PRODUCT_DESC_LEN := 40
    SERIAL_DESC_LEN := 4
    AllocatePages := fun _ _ _ => (EFI_SUCCESS, 0x9000)
    InstallConfigurationTableStatus := fun _ _ => EFI_SUCCESS
    CreateEvent := fun _ n =>
      match n with
      | .Usb3PciIoNotify => (EFI_SUCCESS, 0x50)
      | .Usb3DxeSmmReadyToLockNotify => (EFI_SUCCESS, 0x51)
    RegisterProtocolNotify := fun _ _ _ => EFI_SUCCESS
    LocateHandleBuffer := fun _ => (EFI_SUCCESS, some [identityPciIo])
    DiscoverInitializeUsbDebugPort := fun _ h => { h with Ready := true }
    InitializeUsbDebugHardware := fun _ h => { h with Ready := true } }

/-- The platform `demoPlatform` built without asserts. -/
def releasePlatform : Platform := { demoPlatform with assertEnabled := false }

/-- A ready instance record adopted from the early phase, with its six buffers. -/
def demoInstance : USB3_DEBUG_PORT_HANDLE :=
  { Initialized := 2, Ready := true, FromHob := true, InNotify := false, PciIoEvent := 0,
    UrbInData := 0x10000, TransferRingInRingSeg0 := 0x11000,
    TransferRingOutRingSeg0 := 0x12000, EventRingSeg0 := 0x13000, ERSTBase := 0x15000,
    DebugCapabilityContext := 0x16000 }

/-- A world right after boot: nothing cached, no HOB, empty configuration table. -/
def bootWorld : World :=
  { gBS := true, mUsb3Instance := 0, mUsb3PciIo := none,
    instances := fun _ => USB3_DEBUG_PORT_HANDLE.zero,
    String0DescAddress := fun _ => 0x17000,
    hobList := [], configTable := [], openEvents := [], trace := [] }

/-- A world in which the instance `demoInstance` is cached at address `0x9000`. -/
def cachedWorld : World :=
  { bootWorld with
    mUsb3Instance := 0x9000
    instances := Function.update (fun _ => USB3_DEBUG_PORT_HANDLE.zero) 0x9000 demoInstance }

/-- The boot world with a PCI I/O interface recorded in `mUsb3PciIo`. -/
def pciWorld (PciIo : EFI_PCI_IO_PROTOCOL) : World :=
  { bootWorld with mUsb3PciIo := some PciIo }

/-- The map request an event stands for: interface, host address and byte count of
a `Map` call, and `none` for every other event (so also for every allocation). -/
def Event.request? : Event → Option (Nat × Nat × Nat)
  | .Map This HostAddress NumberOfBytes _ _ => some (This, HostAddress, NumberOfBytes)
  | _ => none

/-- The seven buffers of an instance as the specification lists them, each with the
size it is mapped with: the I/O buffer, the inbound and the outbound transfer ring,
the event ring, the event ring segment table, the device context and the string
descriptors found through the device context. -/
def dmaBufferRequests (p : Platform) (h : USB3_DEBUG_PORT_HANDLE)
    (String0DescAddress : Nat → Nat) : List (Nat × Nat) :=
  [ (h.UrbInData, p.XHCI_DEBUG_DEVICE_MAX_PACKET_SIZE * 2
      + p.USB3_DEBUG_PORT_WRITE_MAX_PACKET_SIZE),
    (h.TransferRingInRingSeg0, p.sizeofTRB_TEMPLATE * p.TR_RING_TRB_NUMBER),
    (h.TransferRingOutRingSeg0, p.sizeofTRB_TEMPLATE * p.TR_RING_TRB_NUMBER),
    (h.EventRingSeg0, p.sizeofTRB_TEMPLATE * p.EVENT_RING_TRB_NUMBER),
    (h.ERSTBase, p.sizeofEVENT_RING_SEG_TABLE_ENTRY * p.ERST_NUMBER),
    (h.DebugCapabilityContext, p.sizeofXHC_DC_CONTEXT),
    (String0DescAddress h.DebugCapabilityContext,
      p.STRING0_DESC_LEN + p.MANU_DESC_LEN + p.PRODUCT_DESC_LEN + p.SERIAL_DESC_LEN) ]

/-- Two worlds that differ at most in their trace: every global, every field of
every instance record, the rest of memory, the HOB list, the configuration table
and the open events are the same. -/
def World.sameState (a b : World) : Prop :=
  a.gBS = b.gBS ∧ a.mUsb3Instance = b.mUsb3Instance
    ∧ a.mUsb3PciIo.map (fun i => i.This) = b.mUsb3PciIo.map (fun i => i.This)
    ∧ a.instances = b.instances ∧ a.String0DescAddress = b.String0DescAddress
    ∧ a.hobList = b.hobList ∧ a.configTable = b.configTable ∧ a.openEvents = b.openEvents

/-! ## Executions -/

/-- The entry points of the library: `Init ()` is the constructor, `Locate ()` is
`GetUsb3DebugPortInstance`, the two event handlers are called with the event that
fired, and `Teardown ()` is the destructor. -/
inductive Action where
  | Init
  | Locate
  | PciIoNotify (Event : Nat)
  | ReadyToLockNotify (Event : Nat)
  | Teardown
  deriving DecidableEq, Repr

/-- Run one entry point. -/
def step (p : Platform) : Action → World → Outcome Unit
  | .Init, w => (DebugCommunicationUsb3DxeConstructor p w).bind fun _ w1 => .ret () w1
  | .Locate, w => .ret () (GetUsb3DebugPortInstance p w).2
  | .PciIoNotify Event, w => Usb3PciIoNotify p Event w
  | .ReadyToLockNotify Event, w => Usb3DxeSmmReadyToLockNotify p Event w
  | .Teardown, w => .ret () (DebugCommunicationUsb3DxeDestructor w).2

/-- Run a sequence of entry points, one after the other (the callbacks are never
nested); once the machine has stopped nothing further runs. -/
def run (p : Platform) : List Action → World → Outcome Unit
  | [], w => .ret () w
  | a :: rest, w => (step p a w).bind fun _ w1 => run p rest w1

/-- The record published under the GUID of the debug port, if there is one. -/
def published? (p : Platform) (w : World) : Option Nat :=
  (w.configTable.find? (fun e => e.1 == p.gUsb3DbgGuid)).map (fun e => e.2)

/-- An event that publishes a record: an `InstallConfigurationTable` that did not
answer with an error. -/
def Event.isPublish : Event → Bool
  | .InstallConfigurationTable _ Status => !EFI_ERROR Status
  | _ => false

/-- How many records a trace published. -/
def publishCount (t : List Event) : Nat := t.countP Event.isPublish

/-- An event that takes host memory or publishes: a page allocation, a buffer
allocation or an `InstallConfigurationTable`. -/
def Event.isAllocOrInstall : Event → Bool
  | .AllocatePages _ _ _ _ => true
  | .AllocateBuffer _ _ _ _ => true
  | .InstallConfigurationTable _ _ => true
  | _ => false

/-- Nothing was published between two worlds: same configuration table, same
number of published records. -/
def Frame (w w1 : World) : Prop :=
  w1.configTable = w.configTable ∧ publishCount w1.trace = publishCount w.trace

/-- The run from the first world to the second appended only events that neither
take host memory nor publish. -/
def Quiet (w w1 : World) : Prop :=
  ∃ evs, w1.trace = w.trace ++ evs ∧ ∀ e ∈ evs, Event.isAllocOrInstall e = false

/-- The invariant behind "published at most once": while nothing is published
under the GUID the trace holds no publishing event, and it never holds two. -/
def PublishedOnce (p : Platform) (w : World) : Prop :=
  (published? p w = none → publishCount w.trace = 0) ∧ publishCount w.trace ≤ 1

/-- An event that enters a hardware bring-up routine. -/
def Event.isBringup : Event → Bool
  | .DiscoverInitializeUsbDebugPort _ => true
  | .InitializeUsbDebugHardware _ => true
  | _ => false

/-- The run from the first world to the second appended only events with the
property `P`. -/
def Only (P : Event → Prop) (w w1 : World) : Prop :=
  ∃ evs, w1.trace = w.trace ++ evs ∧ ∀ e ∈ evs, P e

/-- How the code uses the flag around bring-up: `InitializeUsbDebugHardware` is
entered with `InNotify` set, `DiscoverInitializeUsbDebugPort` with `InNotify`
clear. -/
def Event.guardOK : Event → Prop
  | .InitializeUsbDebugHardware InNotify => InNotify = true
  | .DiscoverInitializeUsbDebugPort InNotify => InNotify = false
  | _ => True

/-- Whether a PCI I/O interface sits at the expected controller address. -/
def isUsb3DebugPort (p : Platform) (PciIo : EFI_PCI_IO_PROTOCOL) : Bool :=
  decide (PciAddress PciIo.GetLocation = p.PcdUsbXhciPciAddress)

/-- The two events a returning `Usb3NamedEventListen` appends to the trace `t`. -/
def listenEvents (p : Platform) (Name : ProtocolGuid) (n : NotifyFunction) (t : List Event) :
    List Event :=
  [ .CreateEvent n (p.CreateEvent t n).1 (p.CreateEvent t n).2,
    .RegisterProtocolNotify Name (p.CreateEvent t n).2
      (p.RegisterProtocolNotify (t ++ [.CreateEvent n (p.CreateEvent t n).1 (p.CreateEvent t n).2])
        Name (p.CreateEvent t n).2) ]

/-- The handle list the appearance handler walks: the buffer `LocateHandleBuffer`
answered with, when it answered without an error, with a buffer, and with at least
one handle; and no handle at all otherwise. -/
def enumeratedHandles (p : Platform) (w : World) : List EFI_PCI_IO_PROTOCOL :=
  match (p.LocateHandleBuffer w.trace).2 with
  | none => []
  | some l => if !EFI_ERROR (p.LocateHandleBuffer w.trace).1 && l.length != 0 then l else []

/-- A PCI I/O interface at bus 0, device 20, function 0: not the debug port. -/
def otherPciIo : EFI_PCI_IO_PROTOCOL :=
  { identityPciIo with This := 8, GetLocation := (0, 0, 20, 0) }

/-- The demo platform with another answer of `LocateHandleBuffer`. -/
def platformWithHandles (r : EFI_STATUS × Option (List EFI_PCI_IO_PROTOCOL)) : Platform :=
  { demoPlatform with LocateHandleBuffer := fun _ => r }

/-- The cached demo instance with an appearance watch registered: event `0x50` is
open and recorded in `PciIoEvent`. -/
def watchingWorld : World :=
  { bootWorld with
    mUsb3Instance := 0x9000
    instances := Function.update (fun _ => USB3_DEBUG_PORT_HANDLE.zero) 0x9000
      { demoInstance with PciIoEvent := 0x50 }
    openEvents := [0x50]
    configTable := [(0xB2A56F4D, 0x9000)] }

/-- A world right after boot in which the early phase left a GUID HOB of the debug
port at address `0x8000`, holding the demo instance. -/
def hobWorld : World :=
  { bootWorld with
    hobList := [(0x11, 0x7000), (0xB2A56F4D, 0x8000), (0xB2A56F4D, 0x8800)]
    instances := Function.update (fun _ => USB3_DEBUG_PORT_HANDLE.zero) (0x8000 + 24)
      demoInstance }

end Usb3Dxe

/-!
# ACPI table lookup of `UefiLib`

A shallow embedding of `MdePkg/Library/UefiLib/Acpi.c`.  Memory is a function from
addresses to bytes; the multi-byte fields of the ACPI structures are read little
endian at the offsets the packed structures of `IndustryStandard/Acpi.h` give them.
`UINTN` is 64 bit wide, as above.  The two scan functions return, next to the
pointer, the list of memory reads they made, in order.
-/

namespace UefiLibAcpi

/-- Memory: the byte stored at each address. -/
abbrev Memory := Nat → Nat

/-- Read a `UINT8`. -/
def ReadUint8 (m : Memory) (Address : Nat) : Nat := m Address % 256

/-- Read a little-endian `UINT32`. -/
def ReadUint32 (m : Memory) (Address : Nat) : Nat :=
  ReadUint8 m Address + 2 ^ 8 * ReadUint8 m (Address + 1) + 2 ^ 16 * ReadUint8 m (Address + 2)
    + 2 ^ 24 * ReadUint8 m (Address + 3)

/-- Read a little-endian `UINT64` (also what `CopyMem` of eight bytes into a
`UINT64` yields). -/
def ReadUint64 (m : Memory) (Address : Nat) : Nat :=
  ReadUint32 m Address + 2 ^ 32 * ReadUint32 m (Address + 4)

/-- The size of `EFI_ACPI_DESCRIPTION_HEADER`: signature, length, revision,
checksum, OEM id, OEM table id, OEM revision, creator id, creator revision. -/
def sizeofEFI_ACPI_DESCRIPTION_HEADER : Nat := 36

/-- The signature `FACS` (`SIGNATURE_32 ('F', 'A', 'C', 'S')`). -/
def EFI_ACPI_2_0_FIRMWARE_ACPI_CONTROL_STRUCTURE_SIGNATURE : Nat := 0x53434146

/-- The signature `FACP` of the FADT (`SIGNATURE_32 ('F', 'A', 'C', 'P')`). -/
def EFI_ACPI_2_0_FIXED_ACPI_DESCRIPTION_TABLE_SIGNATURE : Nat := 0x50434146

/-- The revision the FADT has from ACPI 2.0 on. -/
def EFI_ACPI_2_0_FIXED_ACPI_DESCRIPTION_TABLE_REVISION : Nat := 0x03

/-- The revision the RSDP has from ACPI 2.0 on. -/
def EFI_ACPI_2_0_ROOT_SYSTEM_DESCRIPTION_POINTER_REVISION : Nat := 0x02

/-- The GUID `gEfiAcpi20TableGuid` of `Guid/Acpi.h`, as a 128 bit number. -/
def gEfiAcpi20TableGuid : Nat := 0x8868e871e4f111d3bc220080c73c8881

/-- The GUID `gEfiAcpi10TableGuid` of `Guid/Acpi.h`, as a 128 bit number. -/
def gEfiAcpi10TableGuid : Nat := 0xeb9d2d302d8811d39a160090273fc14d

/-- One memory read of a scan function: the `Length` field of the root table, an
entry of the root table (address and size in bytes), or the `Signature` field of
the table an entry refers to. -/
inductive Access where
  | Length (Address : Nat)
  | Entry (Address Size : Nat)
  | Signature (Address : Nat)
  deriving DecidableEq, Repr

/-- The `for` loop of `ScanTableInRSDT`; the first argument is the number of
iterations left, `EntryCount - Index`, the second is `EntryPtr`. -/
def ScanTableInRSDT.loop (m : Memory) (Signature : Nat) : Nat → Nat → Nat × List Access
  | 0, _ => (0, [])
  | n + 1, EntryPtr =>
    let Table := ReadUint32 m EntryPtr
    if ReadUint32 m Table = Signature then (Table, [.Entry EntryPtr 4, .Signature Table])
    else
      let r := ScanTableInRSDT.loop m Signature n (EntryPtr + 4)
      (r.1, .Entry EntryPtr 4 :: .Signature Table :: r.2)

/-- C function `ScanTableInRSDT`.  The difference `Rsdt->Length - sizeof (...)` is
taken in `UINTN`, divided, and cut to the `UINT32` `EntryCount`. -/
def ScanTableInRSDT (m : Memory) (Rsdt Signature : Nat) : Nat × List Access :=
  if Rsdt = 0 then (0, [])
  else
    let EntryCount :=
      (((ReadUint32 m (Rsdt + 4) + 2 ^ 64 - sizeofEFI_ACPI_DESCRIPTION_HEADER) % 2 ^ 64) / 4)
        % 2 ^ 32
    let r := ScanTableInRSDT.loop m Signature EntryCount (Rsdt + sizeofEFI_ACPI_DESCRIPTION_HEADER)
    (r.1, .Length (Rsdt + 4) :: r.2)

/-- The `for` loop of `ScanTableInXSDT`; the first argument is the number of
iterations left, `EntryCount - Index`, the third is `Index`.  The entry address
`BasePtr + Index * sizeof (UINT64)` is taken in `UINTN`. -/
def ScanTableInXSDT.loop (m : Memory) (Signature BasePtr : Nat) : Nat → Nat → Nat × List Access
  | 0, _ => (0, [])
  | n + 1, Index =>
    let Table := ReadUint64 m ((BasePtr + Index * 8) % 2 ^ 64)
    if ReadUint32 m Table = Signature then
      (Table, [.Entry ((BasePtr + Index * 8) % 2 ^ 64) 8, .Signature Table])
    else
      let r := ScanTableInXSDT.loop m Signature BasePtr n (Index + 1)
      (r.1, .Entry ((BasePtr + Index * 8) % 2 ^ 64) 8 :: .Signature Table :: r.2)

/-- C function `ScanTableInXSDT`. -/
def ScanTableInXSDT (m : Memory) (Xsdt Signature : Nat) : Nat × List Access :=
  if Xsdt = 0 then (0, [])
  else
    let EntryCount :=
      (((ReadUint32 m (Xsdt + 4) + 2 ^ 64 - sizeofEFI_ACPI_DESCRIPTION_HEADER) % 2 ^ 64) / 8)
        % 2 ^ 32
    let BasePtr := (Xsdt + sizeofEFI_ACPI_DESCRIPTION_HEADER) % 2 ^ 64
    let r := ScanTableInXSDT.loop m Signature BasePtr EntryCount 0
    (r.1, .Length (Xsdt + 4) :: r.2)

/-- C function `FindAcpiFacsFromFadt`: `Header.Revision` is at offset 8,
`FirmwareCtrl` at offset 36 and `XFirmwareCtrl` at offset 132 of the FADT. -/
def FindAcpiFacsFromFadt (m : Memory) (Fadt : Nat) : Nat :=
  if Fadt = 0 then 0
  else if ReadUint8 m (Fadt + 8) < EFI_ACPI_2_0_FIXED_ACPI_DESCRIPTION_TABLE_REVISION then
    ReadUint32 m (Fadt + 36)
  else if ReadUint64 m (Fadt + 132) ≠ 0 then ReadUint64 m (Fadt + 132)
  else ReadUint32 m (Fadt + 36)

/-- The system the lookup runs in: the system configuration table (GUID and table
pointer of every entry) and memory. -/
structure System where
  ConfigurationTable : List (Nat × Nat)
  Memory : Memory

/-- Modelled from the spec: `EfiGetSystemConfigurationTable` lives in `UefiLib.c`,
which is not among the sources.  It is the registry lookup `GetTable(identity) ->
record?`: the first entry of the configuration table under the GUID, stored through
the out-pointer with `EFI_SUCCESS`; when there is none the out-pointer is set to
`NULL` and the status is `EFI_NOT_FOUND`. -/
def EfiGetSystemConfigurationTable (s : System) (TableGuid : Nat) : Usb3Dxe.EFI_STATUS × Nat :=
  match s.ConfigurationTable.find? (fun e => e.1 == TableGuid) with
  | some e => (Usb3Dxe.EFI_SUCCESS, e.2)
  | none => (Usb3Dxe.EFI_NOT_FOUND, 0)

/-- C function `FindAcpiTableInAcpiConfigurationTable`: `Revision` is at offset 15,
`RsdtAddress` at offset 16 and `XsdtAddress` at offset 24 of the RSDP. -/
def FindAcpiTableInAcpiConfigurationTable (s : System) (AcpiGuid Signature : Nat) : Nat :=
  let g := EfiGetSystemConfigurationTable s AcpiGuid
  let Rsdp := g.2
  if Usb3Dxe.EFI_ERROR g.1 ∨ Rsdp = 0 then 0
  else
    let Table :=
      if ReadUint8 s.Memory (Rsdp + 15) ≥ EFI_ACPI_2_0_ROOT_SYSTEM_DESCRIPTION_POINTER_REVISION
      then
        if Signature = EFI_ACPI_2_0_FIRMWARE_ACPI_CONTROL_STRUCTURE_SIGNATURE then
          FindAcpiFacsFromFadt s.Memory
            (ScanTableInXSDT s.Memory (ReadUint64 s.Memory (Rsdp + 24))
              EFI_ACPI_2_0_FIXED_ACPI_DESCRIPTION_TABLE_SIGNATURE).1
        else (ScanTableInXSDT s.Memory (ReadUint64 s.Memory (Rsdp + 24)) Signature).1
      else 0
    if Table ≠ 0 then Table
    else if Signature = EFI_ACPI_2_0_FIRMWARE_ACPI_CONTROL_STRUCTURE_SIGNATURE then
      FindAcpiFacsFromFadt s.Memory
        (ScanTableInRSDT s.Memory (ReadUint32 s.Memory (Rsdp + 16))
          EFI_ACPI_2_0_FIXED_ACPI_DESCRIPTION_TABLE_SIGNATURE).1
    else (ScanTableInRSDT s.Memory (ReadUint32 s.Memory (Rsdp + 16)) Signature).1

/-- C function `EfiFindAcpiTableBySignature`. -/
def EfiFindAcpiTableBySignature (s : System) (Signature : Nat) : Nat :=
  if FindAcpiTableInAcpiConfigurationTable s gEfiAcpi20TableGuid Signature ≠ 0 then
    FindAcpiTableInAcpiConfigurationTable s gEfiAcpi20TableGuid Signature
  else FindAcpiTableInAcpiConfigurationTable s gEfiAcpi10TableGuid Signature

/-! ## What the scan claims speak about -/

/-- The entry reads among a list of accesses, each with its address and size. -/
def entryReads : List Access → List (Nat × Nat)
  | [] => []
  | .Entry Address Size :: l => (Address, Size) :: entryReads l
  | .Length _ :: l => entryReads l
  | .Signature _ :: l => entryReads l

/-- The addresses of the first `n` entries of a table whose entries start at `Base`
and are `Size` bytes each. -/
def entrySlots (Base Size : Nat) : Nat → List Nat
  | 0 => []
  | n + 1 => Base :: entrySlots (Base + Size) Size n

/-- The items of a list that a first-match scan examines: every item in order, up
to and including the first one with the property. -/
def examinedUpToMatch {α : Type} (p : α → Bool) : List α → List α
  | [] => []
  | a :: l => if p a then [a] else a :: examinedUpToMatch p l

/-! ## Concrete memory used to evaluate the lookup -/

/-- The `n` little-endian bytes of a number. -/
def leBytes : Nat → Nat → List Nat
  | 0, _ => []
  | n + 1, v => v % 256 :: leBytes n (v / 256)

/-- The bytes of a table that is just an `EFI_ACPI_DESCRIPTION_HEADER` followed by a
body: signature, the length of header and body, the revision, and 27 bytes of
checksum, OEM and creator fields left zero. -/
def tableBytes (Signature Revision : Nat) (Body : List Nat) : List Nat :=
  leBytes 4 Signature ++ leBytes 4 (36 + Body.length) ++ [Revision] ++ List.replicate 27 0
    ++ Body

/-- The bytes of an RSDP: signature `RSD PTR `, checksum and OEM id left zero, the
revision, the RSDT address, the length and the XSDT address. -/
def rsdpBytes (Revision RsdtAddress XsdtAddress : Nat) : List Nat :=
  leBytes 8 0x2052545020445352 ++ List.replicate 7 0 ++ [Revision] ++ leBytes 4 RsdtAddress
    ++ leBytes 4 36 ++ leBytes 8 XsdtAddress ++ List.replicate 4 0

/-- Memory holding the given byte blocks at the given addresses, and zero elsewhere. -/
def memoryOf (blocks : List (Nat × List Nat)) : Memory := fun a =>
  match blocks.find? (fun b => decide (b.1 ≤ a ∧ a < b.1 + b.2.length)) with
  | some b => b.2.getD (a - b.1) 0
  | none => 0

/-- Memory with an RSDP of the given revision at `0x1000`, an RSDT at `0x2000` and an
XSDT at `0x3000` that both list the FADT at `0x4000` and the MADT (`APIC`) at
`0x5000`; the FADT (revision 3) has `FirmwareCtrl = 0x6000` and `XFirmwareCtrl = 0`,
and the FACS is at `0x6000`. -/
def demoMemory (RsdpRevision : Nat) : Memory :=
  memoryOf
    [ (0x1000, rsdpBytes RsdpRevision 0x2000 0x3000),
      (0x2000, tableBytes 0x54445352 1 (leBytes 4 0x4000 ++ leBytes 4 0x5000)),
      (0x3000, tableBytes 0x54445358 1 (leBytes 8 0x4000 ++ leBytes 8 0x5000)),
      (0x4000, tableBytes 0x50434146 3 (leBytes 4 0x6000 ++ List.replicate 92 0 ++ leBytes 8 0)),
      (0x5000, tableBytes 0x43495041 1 []),
      (0x6000, leBytes 4 0x53434146 ++ leBytes 4 64 ++ List.replicate 56 0) ]

/-- A system that publishes the ACPI 2.0 RSDP only. -/
def acpi20System : System :=
  { ConfigurationTable := [(gEfiAcpi20TableGuid, 0x1000)], Memory := demoMemory 2 }

/-- A system that publishes an ACPI 1.0 RSDP only. -/
def acpi10System : System :=
  { ConfigurationTable := [(gEfiAcpi10TableGuid, 0x1000)], Memory := demoMemory 0 }

/-- A system that publishes no ACPI table. -/
def noAcpiSystem : System :=
  { ConfigurationTable := [(0x11, 0x1000)], Memory := demoMemory 2 }

end UefiLibAcpi

namespace Usb3Dxe

/-! ## Basic facts about the outcome type -/

theorem ASSERT_eq_ret {p : Platform} {c : Bool} {w w1 : World} {u : Unit}
    (h : ASSERT p c w = .ret u w1) : w1 = w ∧ (p.assertEnabled = true → c = true) := by
  unfold ASSERT at h
  split at h
  · cases h
  · rename_i hc
    cases h
    refine ⟨rfl, fun ha => ?_⟩
    cases c <;> simp_all

theorem ASSERT_disabled {p : Platform} (hp : p.assertEnabled = false) (c : Bool) (w : World) :
    ASSERT p c w = .ret () w := by
  simp [ASSERT, hp]

theorem ASSERT_true (p : Platform) (w : World) : ASSERT p true w = .ret () w := by
  simp [ASSERT]

theorem bind_eq_ret {α β : Type} {m : Outcome α} {f : α → World → Outcome β} {b : β}
    {w : World} (h : m.bind f = .ret b w) : ∃ a w1, m = .ret a w1 ∧ f a w1 = .ret b w := by
  cases m with
  | ret a w1 => exact ⟨a, w1, rfl, h⟩
  | halt r w1 => cases h

/-- What a returning `Usb3MapOneDmaBuffer` did: it appended exactly one map request,
and with asserts built in the request succeeded with the host address. -/
theorem Usb3MapOneDmaBuffer_eq_ret {p : Platform} {PciIo : EFI_PCI_IO_PROTOCOL}
    {Address NumberOfBytes : Nat} {w w1 : World} {u : Unit}
    (h : Usb3MapOneDmaBuffer p PciIo Address NumberOfBytes w = .ret u w1) :
    w1 = w.log (.Map PciIo.This Address NumberOfBytes
        (PciIo.Map w.trace Address NumberOfBytes).1 (PciIo.Map w.trace Address NumberOfBytes).2)
      ∧ (p.assertEnabled = true →
        EFI_ERROR (PciIo.Map w.trace Address NumberOfBytes).1 = false
          ∧ (PciIo.Map w.trace Address NumberOfBytes).2 = Address) := by
  unfold Usb3MapOneDmaBuffer ASSERT_EFI_ERROR at h
  obtain ⟨a, w2, h1, h2⟩ := bind_eq_ret h
  obtain ⟨e1, c1⟩ := ASSERT_eq_ret h1
  obtain ⟨e2, c2⟩ := ASSERT_eq_ret h2
  subst e1
  subst e2
  refine ⟨rfl, fun ha => ⟨?_, ?_⟩⟩
  · simpa using c1 ha
  · simpa using c2 ha

/-- With asserts built out `Usb3MapOneDmaBuffer` always returns. -/
theorem Usb3MapOneDmaBuffer_disabled {p : Platform} (hp : p.assertEnabled = false)
    (PciIo : EFI_PCI_IO_PROTOCOL) (Address NumberOfBytes : Nat) (w : World) :
    Usb3MapOneDmaBuffer p PciIo Address NumberOfBytes w
      = .ret () (w.log (.Map PciIo.This Address NumberOfBytes
        (PciIo.Map w.trace Address NumberOfBytes).1
        (PciIo.Map w.trace Address NumberOfBytes).2)) := by
  simp [Usb3MapOneDmaBuffer, ASSERT_EFI_ERROR, ASSERT_disabled hp, Outcome.bind]

theorem newEvents_log (w : World) (e : Event) : newEvents w (w.log e) = [e] := by
  simp [newEvents, World.log]

theorem newEvents_self (w : World) : newEvents w w = [] := by
  simp [newEvents]

/-! ## C1: what `AllocateAlignBuffer` returns -/

/-- With `ASSERT` built in, `AllocateAlignBuffer` returns a buffer only after every
map request it issued succeeded and reported a device address equal to the host
address, which is the buffer returned; and when the map request for a freshly
allocated buffer fails or reports another device address, it does not return at all
(the machine stops at the assert). -/
theorem AllocateAlignBuffer_returns_identity_mapped (p : Platform)
    (hassert : p.assertEnabled = true) (BufferSize : Nat) (w : World) :
    (∀ Buf w1, AllocateAlignBuffer p BufferSize w = .ret Buf w1 →
      ∀ This Host Bytes St Dev, Event.Map This Host Bytes St Dev ∈ newEvents w w1 →
        EFI_ERROR St = false ∧ Dev = Host ∧ Host = Buf)
    ∧ (∀ PciIo Address, w.gBS = true → w.mUsb3PciIo = some PciIo →
        PciIo.AllocateBuffer w.trace (EFI_SIZE_TO_PAGES BufferSize) = (EFI_SUCCESS, some Address) →
        (EFI_ERROR (PciIo.Map (w.trace ++ [Event.AllocateBuffer PciIo.This
              (EFI_SIZE_TO_PAGES BufferSize) EFI_SUCCESS Address]) Address
              (EFI_PAGES_TO_SIZE (EFI_SIZE_TO_PAGES BufferSize))).1 = true
          ∨ (PciIo.Map (w.trace ++ [Event.AllocateBuffer PciIo.This
              (EFI_SIZE_TO_PAGES BufferSize) EFI_SUCCESS Address]) Address
              (EFI_PAGES_TO_SIZE (EFI_SIZE_TO_PAGES BufferSize))).2 ≠ Address) →
        (AllocateAlignBuffer p BufferSize w).returned = false) := by
  constructor
  · intro Buf w1 h This Host Bytes St Dev hmem
    unfold AllocateAlignBuffer at h
    split at h
    · split at h
      · rename_i PciIo hP
        obtain ⟨r, w2, h1, h2⟩ := bind_eq_ret h
        cases h2
        unfold Usb3AllocateDmaBuffer at h1
        simp only at h1
        split at h1
        · obtain ⟨u, w3, h3, h4⟩ := bind_eq_ret h1
          cases h4
          obtain ⟨e, c⟩ := Usb3MapOneDmaBuffer_eq_ret h3
          subst e
          simp [newEvents, World.log] at hmem
          obtain ⟨-, rfl, -, rfl, rfl⟩ := hmem
          have := c hassert
          simp [World.log] at this
          exact ⟨this.1, this.2, rfl⟩
        · cases h1
          simp [newEvents, World.log] at hmem
      · simp only at h
        split at h <;> cases h <;> simp [newEvents, World.log] at hmem
    · cases h
      simp [newEvents] at hmem
  · intro PciIo Address hg hP hA hbad
    simp [AllocateAlignBuffer, hg, hP, Usb3AllocateDmaBuffer, hA, EFI_ERROR, EFI_SUCCESS,
      Usb3MapOneDmaBuffer, ASSERT_EFI_ERROR, ASSERT, hassert, World.log] at hbad ⊢
    rcases hbad with hb | hb
    · simp [Outcome.bind, Outcome.returned, hb]
    · by_cases hs : (PciIo.Map (w.trace ++ [Event.AllocateBuffer PciIo.This
          (EFI_SIZE_TO_PAGES BufferSize) 0 Address]) Address
          (EFI_PAGES_TO_SIZE (EFI_SIZE_TO_PAGES BufferSize))).1 < 0
      · simp [Outcome.bind, Outcome.returned, hs]
      · simp [Outcome.bind, Outcome.returned, hs, hb]

/-- On the demo platform (asserts built in, identity `Map`) a 4096 byte request
returns the buffer `0x2000`, and the theorem above applies to it. -/
theorem AllocateAlignBuffer_returns_identity_mapped_witness :
    demoPlatform.assertEnabled = true
    ∧ (AllocateAlignBuffer demoPlatform 4096 (pciWorld identityPciIo)).value? = some 0x2000
    ∧ (∀ Buf w1, AllocateAlignBuffer demoPlatform 4096 (pciWorld identityPciIo) = .ret Buf w1 →
      ∀ This Host Bytes St Dev,
        Event.Map This Host Bytes St Dev ∈ newEvents (pciWorld identityPciIo) w1 →
        EFI_ERROR St = false ∧ Dev = Host ∧ Host = Buf) :=
  ⟨rfl, by decide,
    (AllocateAlignBuffer_returns_identity_mapped demoPlatform rfl 4096
      (pciWorld identityPciIo)).1⟩

/-- With `ASSERT` built out, `AllocateAlignBuffer` on a recorded PCI I/O interface
returns every buffer `AllocateBuffer` handed out without an error, after one map
request for it, whatever that request answered: neither the status nor the device
address of the mapping is looked at. -/
theorem AllocateAlignBuffer_release_returns_allocated (p : Platform)
    (hassert : p.assertEnabled = false) (BufferSize : Nat) (w : World)
    (PciIo : EFI_PCI_IO_PROTOCOL) (St : EFI_STATUS) (Address : Nat)
    (hg : w.gBS = true) (hP : w.mUsb3PciIo = some PciIo)
    (hA : PciIo.AllocateBuffer w.trace (EFI_SIZE_TO_PAGES BufferSize) = (St, some Address))
    (hS : EFI_ERROR St = false) :
    AllocateAlignBuffer p BufferSize w
      = .ret Address
          ((w.log (.AllocateBuffer PciIo.This (EFI_SIZE_TO_PAGES BufferSize) St Address)).log
            (.Map PciIo.This Address (EFI_PAGES_TO_SIZE (EFI_SIZE_TO_PAGES BufferSize))
              (PciIo.Map (w.trace ++ [Event.AllocateBuffer PciIo.This
                (EFI_SIZE_TO_PAGES BufferSize) St Address]) Address
                (EFI_PAGES_TO_SIZE (EFI_SIZE_TO_PAGES BufferSize))).1
              (PciIo.Map (w.trace ++ [Event.AllocateBuffer PciIo.This
                (EFI_SIZE_TO_PAGES BufferSize) St Address]) Address
                (EFI_PAGES_TO_SIZE (EFI_SIZE_TO_PAGES BufferSize))).2)) := by
  simp [AllocateAlignBuffer, hg, hP, Usb3AllocateDmaBuffer, hA, hS,
    Usb3MapOneDmaBuffer_disabled hassert, Outcome.bind, World.log]

/-- C1, the code at the failing input.  In a build with `ASSERT` compiled out,
`AllocateAlignBuffer` returns the buffer `0x2000` although the only map request for
it reported the device address `0x3000`, and it returns the same buffer although the
map request failed: the two asserts of `Usb3MapOneDmaBuffer` are the only check of
the mapping, and nothing of it reaches the caller. -/
theorem AllocateAlignBuffer_returns_mismatched_mapping :
    ((AllocateAlignBuffer releasePlatform 4096 (pciWorld shiftingPciIo)).value? = some 0x2000
      ∧ newEvents (pciWorld shiftingPciIo)
          (AllocateAlignBuffer releasePlatform 4096 (pciWorld shiftingPciIo)).world
        = [Event.AllocateBuffer 7 1 0 0x2000, Event.Map 7 0x2000 4096 0 0x3000])
    ∧ ((AllocateAlignBuffer releasePlatform 4096 (pciWorld failingPciIo)).value? = some 0x2000
      ∧ newEvents (pciWorld failingPciIo)
          (AllocateAlignBuffer releasePlatform 4096 (pciWorld failingPciIo)).world
        = [Event.AllocateBuffer 7 1 0 0x2000, Event.Map 7 0x2000 4096 (-(2 ^ 63 - 9)) 0]
      ∧ EFI_ERROR (-(2 ^ 63 - 9)) = true) := by
  decide

/-! ## C2: `Usb3MapDmaBuffers` -/

theorem sameState_log (w : World) (e : Event) : w.sameState (w.log e) := by
  simp [World.sameState, World.log]

theorem sameState_trans {a b c : World} (h1 : a.sameState b) (h2 : b.sameState c) :
    a.sameState c := by
  obtain ⟨a1, a2, a3, a4, a5, a6, a7, a8⟩ := h1
  obtain ⟨b1, b2, b3, b4, b5, b6, b7, b8⟩ := h2
  exact ⟨a1.trans b1, a2.trans b2, a3.trans b3, a4.trans b4, a5.trans b5, a6.trans b6,
    a7.trans b7, a8.trans b8⟩

/-- A returning `Usb3MapDmaBuffers` appended exactly the seven map requests of the
instance, through the given interface, and touched nothing but the trace. -/
theorem Usb3MapDmaBuffers_eq_ret {p : Platform} {Instance : Nat}
    {PciIo : EFI_PCI_IO_PROTOCOL} {w w1 : World} {u : Unit}
    (h : Usb3MapDmaBuffers p Instance PciIo w = .ret u w1) :
    (newEvents w w1).map Event.request?
        = (dmaBufferRequests p (w.instances Instance) w.String0DescAddress).map
            (fun r => some (PciIo.This, r.1, r.2))
      ∧ w.sameState w1 := by
  unfold Usb3MapDmaBuffers at h
  obtain ⟨_, wa, h1, h⟩ := bind_eq_ret h
  obtain ⟨rfl, -⟩ := Usb3MapOneDmaBuffer_eq_ret h1
  obtain ⟨_, wb, h2, h⟩ := bind_eq_ret h
  obtain ⟨rfl, -⟩ := Usb3MapOneDmaBuffer_eq_ret h2
  obtain ⟨_, wc, h3, h⟩ := bind_eq_ret h
  obtain ⟨rfl, -⟩ := Usb3MapOneDmaBuffer_eq_ret h3
  obtain ⟨_, wd, h4, h⟩ := bind_eq_ret h
  obtain ⟨rfl, -⟩ := Usb3MapOneDmaBuffer_eq_ret h4
  obtain ⟨_, we, h5, h⟩ := bind_eq_ret h
  obtain ⟨rfl, -⟩ := Usb3MapOneDmaBuffer_eq_ret h5
  obtain ⟨_, wf, h6, h⟩ := bind_eq_ret h
  obtain ⟨rfl, -⟩ := Usb3MapOneDmaBuffer_eq_ret h6
  obtain ⟨rfl, -⟩ := Usb3MapOneDmaBuffer_eq_ret h
  constructor
  · simp [newEvents, World.log, Event.request?, dmaBufferRequests]
  · simp [World.sameState, World.log]

/-- With asserts built out `Usb3MapDmaBuffers` always returns. -/
theorem Usb3MapDmaBuffers_disabled {p : Platform} (hp : p.assertEnabled = false)
    (Instance : Nat) (PciIo : EFI_PCI_IO_PROTOCOL) (w : World) :
    (Usb3MapDmaBuffers p Instance PciIo w).returned = true := by
  simp [Usb3MapDmaBuffers, Usb3MapOneDmaBuffer_disabled hp, Outcome.bind, Outcome.returned]

/-- When the answer of `Map` does not depend on what happened before, a
`Usb3MapDmaBuffers` that returned once returns again on the world it left. -/
theorem Usb3MapDmaBuffers_returns_again {p : Platform} {Instance : Nat}
    {PciIo : EFI_PCI_IO_PROTOCOL} {w w1 : World} {u : Unit}
    (hpure : ∀ t t1 a n, PciIo.Map t a n = PciIo.Map t1 a n)
    (h : Usb3MapDmaBuffers p Instance PciIo w = .ret u w1) :
    (Usb3MapDmaBuffers p Instance PciIo w1).returned = true := by
  by_cases ha : p.assertEnabled = false
  · exact Usb3MapDmaBuffers_disabled ha Instance PciIo w1
  · have ha1 : p.assertEnabled = true := by simpa using ha
    obtain ⟨f, hf⟩ : ∃ f : Nat → Nat → EFI_STATUS × Nat, ∀ t a n, PciIo.Map t a n = f a n :=
      ⟨PciIo.Map [], fun t a n => hpure t [] a n⟩
    unfold Usb3MapDmaBuffers at h
    obtain ⟨_, wa, h1, h⟩ := bind_eq_ret h
    obtain ⟨rfl, c1⟩ := Usb3MapOneDmaBuffer_eq_ret h1
    obtain ⟨_, wb, h2, h⟩ := bind_eq_ret h
    obtain ⟨rfl, c2⟩ := Usb3MapOneDmaBuffer_eq_ret h2
    obtain ⟨_, wc, h3, h⟩ := bind_eq_ret h
    obtain ⟨rfl, c3⟩ := Usb3MapOneDmaBuffer_eq_ret h3
    obtain ⟨_, wd, h4, h⟩ := bind_eq_ret h
    obtain ⟨rfl, c4⟩ := Usb3MapOneDmaBuffer_eq_ret h4
    obtain ⟨_, we, h5, h⟩ := bind_eq_ret h
    obtain ⟨rfl, c5⟩ := Usb3MapOneDmaBuffer_eq_ret h5
    obtain ⟨_, wf, h6, h⟩ := bind_eq_ret h
    obtain ⟨rfl, c6⟩ := Usb3MapOneDmaBuffer_eq_ret h6
    obtain ⟨rfl, c7⟩ := Usb3MapOneDmaBuffer_eq_ret h
    have d1 := c1 ha1
    have d2 := c2 ha1
    have d3 := c3 ha1
    have d4 := c4 ha1
    have d5 := c5 ha1
    have d6 := c6 ha1
    have d7 := c7 ha1
    simp only [hf, World.log] at d1 d2 d3 d4 d5 d6 d7
    simp [Usb3MapDmaBuffers, Usb3MapOneDmaBuffer, ASSERT_EFI_ERROR, ASSERT, hf, World.log,
      Outcome.bind, Outcome.returned, d1, d2, d3, d4, d5, d6, d7, ha1]

/-- C2.  `Usb3MapDmaBuffers` is idempotent.  Whenever two invocations in succession
on the same instance and interface return, each of them issued exactly the seven
map requests of the instance (I/O buffer, inbound ring, outbound ring, event ring,
segment table, device context, string descriptors: same host addresses and sizes
both times), issued nothing else (so no allocation), and left every global, every
field of every instance record and the rest of the state as it was.  With `ASSERT`
built out both invocations always return; and when the answers of `Map` do not
depend on the history, the second invocation returns whenever the first did. -/
theorem Usb3MapDmaBuffers_idempotent (p : Platform) (Instance : Nat)
    (PciIo : EFI_PCI_IO_PROTOCOL) (w : World) :
    (∀ w1 w2, Usb3MapDmaBuffers p Instance PciIo w = .ret () w1 →
      Usb3MapDmaBuffers p Instance PciIo w1 = .ret () w2 →
      (newEvents w w1).map Event.request?
          = (dmaBufferRequests p (w.instances Instance) w.String0DescAddress).map
              (fun r => some (PciIo.This, r.1, r.2))
        ∧ (newEvents w1 w2).map Event.request? = (newEvents w w1).map Event.request?
        ∧ w.sameState w1 ∧ w.sameState w2
        ∧ w2.instances Instance = w.instances Instance)
    ∧ (p.assertEnabled = false →
        ∃ w1 w2, Usb3MapDmaBuffers p Instance PciIo w = .ret () w1
          ∧ Usb3MapDmaBuffers p Instance PciIo w1 = .ret () w2)
    ∧ ((∀ t t1 a n, PciIo.Map t a n = PciIo.Map t1 a n) →
        ∀ w1, Usb3MapDmaBuffers p Instance PciIo w = .ret () w1 →
          ∃ w2, Usb3MapDmaBuffers p Instance PciIo w1 = .ret () w2) := by
  refine ⟨?_, ?_, ?_⟩
  · intro w1 w2 h1 h2
    obtain ⟨r1, s1⟩ := Usb3MapDmaBuffers_eq_ret h1
    obtain ⟨r2, s2⟩ := Usb3MapDmaBuffers_eq_ret h2
    have s12 := sameState_trans s1 s2
    refine ⟨r1, ?_, s1, s12, ?_⟩
    · rw [r2, r1, ← s1.2.2.2.1, ← s1.2.2.2.2.1]
    · rw [← s12.2.2.2.1]
  · intro hp
    have t1 := Usb3MapDmaBuffers_disabled hp Instance PciIo w
    cases h1 : Usb3MapDmaBuffers p Instance PciIo w with
    | halt r w1 => simp [h1, Outcome.returned] at t1
    | ret u w1 =>
      have t2 := Usb3MapDmaBuffers_disabled hp Instance PciIo w1
      cases h2 : Usb3MapDmaBuffers p Instance PciIo w1 with
      | halt r w2 => simp [h2, Outcome.returned] at t2
      | ret u2 w2 => exact ⟨w1, w2, rfl, h2⟩
  · intro hpure w1 h1
    have t2 := Usb3MapDmaBuffers_returns_again hpure h1
    cases h2 : Usb3MapDmaBuffers p Instance PciIo w1 with
    | halt r w2 => simp [h2, Outcome.returned] at t2
    | ret u2 w2 => exact ⟨w2, rfl⟩

/-- C2, witness: on the demo platform both invocations return on the cached demo
instance, and both issue the same seven requests through interface 7. -/
theorem Usb3MapDmaBuffers_idempotent_witness :
    ∃ w1 w2, Usb3MapDmaBuffers demoPlatform 0x9000 identityPciIo cachedWorld = .ret () w1
      ∧ Usb3MapDmaBuffers demoPlatform 0x9000 identityPciIo w1 = .ret () w2
      ∧ (newEvents cachedWorld w1).map Event.request?
        = [some (7, 0x10000, 2056), some (7, 0x11000, 4096), some (7, 0x12000, 4096),
            some (7, 0x13000, 8192), some (7, 0x15000, 16), some (7, 0x16000, 192),
            some (7, 0x17000, 60)]
      ∧ (newEvents w1 w2).map Event.request? = (newEvents cachedWorld w1).map Event.request?
      ∧ w2.instances 0x9000 = demoInstance := by
  have T := Usb3MapDmaBuffers_idempotent demoPlatform 0x9000 identityPciIo cachedWorld
  have R : (Usb3MapDmaBuffers demoPlatform 0x9000 identityPciIo cachedWorld).returned = true := by
    decide
  cases h1 : Usb3MapDmaBuffers demoPlatform 0x9000 identityPciIo cachedWorld with
  | halt r w1 => simp [h1, Outcome.returned] at R
  | ret u w1 =>
    obtain ⟨w2, h2⟩ := T.2.2 (fun _ _ _ _ => rfl) w1 h1
    obtain ⟨a, b, -, -, e⟩ := T.1 w1 w2 h1 h2
    refine ⟨w1, w2, rfl, h2, ?_, b, ?_⟩
    · rw [a]
      decide
    · rw [e]
      decide

/-! ## C3: at most one published record -/

theorem frame_refl (w : World) : Frame w w := ⟨rfl, rfl⟩

theorem frame_trans {a b c : World} (h1 : Frame a b) (h2 : Frame b c) : Frame a c :=
  ⟨h2.1.trans h1.1, h2.2.trans h1.2⟩

theorem frame_log (w : World) (e : Event) (he : e.isPublish = false) : Frame w (w.log e) := by
  simp [Frame, World.log, publishCount, List.countP_append, List.countP_cons, he]

theorem frame_setInstance (w : World) (a : Nat) (h : USB3_DEBUG_PORT_HANDLE) :
    Frame w (w.setInstance a h) := ⟨rfl, rfl⟩

theorem frame_bind {α β : Type} {w : World} {m : Outcome α} {f : α → World → Outcome β}
    (h1 : Frame w m.world) (h2 : ∀ v w1, Frame w1 (f v w1).world) :
    Frame w (m.bind f).world := by
  cases m with
  | ret v w1 => exact frame_trans h1 (h2 v w1)
  | halt r w1 => exact h1

theorem ASSERT_world (p : Platform) (c : Bool) (w : World) : (ASSERT p c w).world = w := by
  unfold ASSERT
  split <;> rfl

theorem frame_ASSERT (p : Platform) (c : Bool) (w : World) : Frame w (ASSERT p c w).world := by
  rw [ASSERT_world]
  exact frame_refl w

theorem frame_CloseEvent (e : Nat) (w : World) : Frame w (CloseEvent e w) := by
  simp [Frame, CloseEvent, World.log, publishCount, List.countP_append, List.countP_cons,
    Event.isPublish]

theorem frame_setInNotify (b : Bool) (w : World) : Frame w (setInNotify b w) := by
  simp [Frame, setInNotify, World.setInstance, World.log, publishCount, List.countP_append,
    List.countP_cons, Event.isPublish]

theorem frame_callInitializeUsbDebugHardware (p : Platform) (i : Nat) (w : World) :
    Frame w (callInitializeUsbDebugHardware p i w) := by
  simp [Frame, callInitializeUsbDebugHardware, World.setInstance, World.log, publishCount,
    List.countP_append, List.countP_cons, Event.isPublish]

theorem frame_callDiscoverInitializeUsbDebugPort (p : Platform) (i : Nat) (w : World) :
    Frame w (callDiscoverInitializeUsbDebugPort p i w) := by
  simp [Frame, callDiscoverInitializeUsbDebugPort, World.setInstance, World.log, publishCount,
    List.countP_append, List.countP_cons, Event.isPublish]

theorem frame_Usb3MapOneDmaBuffer (p : Platform) (PciIo : EFI_PCI_IO_PROTOCOL) (a n : Nat)
    (w : World) : Frame w (Usb3MapOneDmaBuffer p PciIo a n w).world := by
  unfold Usb3MapOneDmaBuffer ASSERT_EFI_ERROR
  refine frame_bind (frame_trans ?_ (frame_ASSERT _ _ _)) (fun _ _ => frame_ASSERT _ _ _)
  apply frame_log
  rfl

theorem frame_Usb3MapDmaBuffers (p : Platform) (i : Nat) (PciIo : EFI_PCI_IO_PROTOCOL)
    (w : World) : Frame w (Usb3MapDmaBuffers p i PciIo w).world := by
  unfold Usb3MapDmaBuffers
  refine frame_bind (frame_Usb3MapOneDmaBuffer _ _ _ _ _) fun _ _ => ?_
  refine frame_bind (frame_Usb3MapOneDmaBuffer _ _ _ _ _) fun _ _ => ?_
  refine frame_bind (frame_Usb3MapOneDmaBuffer _ _ _ _ _) fun _ _ => ?_
  refine frame_bind (frame_Usb3MapOneDmaBuffer _ _ _ _ _) fun _ _ => ?_
  refine frame_bind (frame_Usb3MapOneDmaBuffer _ _ _ _ _) fun _ _ => ?_
  refine frame_bind (frame_Usb3MapOneDmaBuffer _ _ _ _ _) fun _ _ => ?_
  exact frame_Usb3MapOneDmaBuffer _ _ _ _ _

theorem frame_Usb3NamedEventListen (p : Platform) (Name : ProtocolGuid) (n : NotifyFunction)
    (w : World) : Frame w (Usb3NamedEventListen p Name n w).world := by
  unfold Usb3NamedEventListen ASSERT_EFI_ERROR
  refine frame_bind ?_ fun _ w3 => ?_
  · refine frame_trans ?_ (frame_ASSERT _ _ _)
    refine frame_trans (b := w.log (.CreateEvent n (p.CreateEvent w.trace n).1
      (p.CreateEvent w.trace n).2)) (frame_log _ _ rfl) ?_
    split
    · exact frame_refl _
    · exact ⟨rfl, rfl⟩
  · refine frame_bind (frame_trans ?_ (frame_ASSERT _ _ _)) (fun _ _ => frame_refl _)
    apply frame_log
    rfl

theorem frame_found (p : Platform) (Event : Nat) (PciIo : EFI_PCI_IO_PROTOCOL) (w : World) :
    Frame w (Usb3PciIoNotify.found p Event PciIo w).world := by
  unfold Usb3PciIoNotify.found
  refine frame_bind (frame_ASSERT _ _ _) fun _ w0 => ?_
  split
  · exact frame_refl _
  · refine frame_bind
      (frame_trans (frame_setInNotify true w0) (frame_Usb3MapDmaBuffers _ _ _ _)) fun _ w1 => ?_
    simp only
    split
    · refine frame_trans (frame_setInNotify false w1) ?_
      exact frame_bind (frame_trans ⟨rfl, rfl⟩ (frame_Usb3NamedEventListen _ _ _ _))
        fun _ w3 => frame_CloseEvent _ _
    · exact frame_trans (frame_setInNotify false w1) (frame_CloseEvent _ _)

theorem frame_loop (p : Platform) (Event : Nat) (l : List EFI_PCI_IO_PROTOCOL) (w : World) :
    Frame w (Usb3PciIoNotify.loop p Event l w).world := by
  induction l with
  | nil => exact frame_refl w
  | cons PciIo rest ih =>
    unfold Usb3PciIoNotify.loop
    split
    · exact frame_found _ _ _ _
    · exact ih

theorem frame_Usb3PciIoNotify (p : Platform) (Ev : Nat) (w : World) :
    Frame w (Usb3PciIoNotify p Ev w).world := by
  have hl : Frame w (w.log (.LocateHandleBuffer (p.LocateHandleBuffer w.trace).1
      ((p.LocateHandleBuffer w.trace).2.getD []).length)) := frame_log w _ rfl
  unfold Usb3PciIoNotify
  simp only
  split
  · exact hl
  · split
    · exact frame_bind (frame_trans hl (frame_loop _ _ _ _))
        (fun _ w2 => frame_log w2 .FreePool rfl)
    · exact hl

theorem frame_Usb3DxeSmmReadyToLockNotify (p : Platform) (Event : Nat) (w : World) :
    Frame w (Usb3DxeSmmReadyToLockNotify p Event w).world := by
  unfold Usb3DxeSmmReadyToLockNotify
  refine frame_bind (frame_ASSERT _ _ _) fun _ w0 => ?_
  split
  · exact frame_refl _
  · exact frame_trans (frame_setInNotify true w0)
      (frame_trans (frame_callInitializeUsbDebugHardware _ _ _)
        (frame_trans (frame_log _ (.MicroSecondDelay 1000000) rfl)
          (frame_trans (frame_setInNotify false _) (frame_CloseEvent _ _))))

theorem frame_GetUsb3DebugPortInstance (p : Platform) (w : World) :
    Frame w (GetUsb3DebugPortInstance p w).2 := by
  unfold GetUsb3DebugPortInstance
  simp only
  split
  · exact frame_callDiscoverInitializeUsbDebugPort _ _ _
  · exact frame_refl w

theorem frame_Destructor (w : World) : Frame w (DebugCommunicationUsb3DxeDestructor w).2 := by
  unfold DebugCommunicationUsb3DxeDestructor
  split
  · exact frame_trans (frame_CloseEvent _ w) (frame_setInstance _ _ _)
  · exact frame_refl w

theorem frame_Done (p : Platform) (w : World) :
    Frame w (DebugCommunicationUsb3DxeConstructor.Done p w).world := by
  unfold DebugCommunicationUsb3DxeConstructor.Done
  split
  · refine frame_bind (frame_Usb3NamedEventListen _ _ _ _) fun r w1 => ?_
    split
    · exact frame_setInstance _ _ _
    · exact frame_refl _
  · exact frame_refl w

theorem published_of_frame {p : Platform} {w w1 : World} (h : Frame w w1) :
    published? p w1 = published? p w := by
  simp [published?, h.1]

theorem publishedOnce_of_frame {p : Platform} {w w1 : World} (h : Frame w w1)
    (hi : PublishedOnce p w) : PublishedOnce p w1 := by
  unfold PublishedOnce
  rw [published_of_frame h, h.2]
  exact hi

theorem quiet_refl (w : World) : Quiet w w := ⟨[], by simp, by simp⟩

theorem quiet_trans {a b c : World} (h1 : Quiet a b) (h2 : Quiet b c) : Quiet a c := by
  obtain ⟨e1, t1, q1⟩ := h1
  obtain ⟨e2, t2, q2⟩ := h2
  refine ⟨e1 ++ e2, by rw [t2, t1, List.append_assoc], ?_⟩
  intro e he
  rcases List.mem_append.1 he with h | h
  · exact q1 e h
  · exact q2 e h

theorem quiet_log (w : World) (e : Event) (he : e.isAllocOrInstall = false) :
    Quiet w (w.log e) :=
  ⟨[e], rfl, by simpa using he⟩

theorem quiet_of_trace_eq {w w1 : World} (h : w1.trace = w.trace) : Quiet w w1 :=
  ⟨[], by simp [h], by simp⟩

theorem quiet_bind {α β : Type} {w : World} {m : Outcome α} {f : α → World → Outcome β}
    (h1 : Quiet w m.world) (h2 : ∀ v w1, Quiet w1 (f v w1).world) :
    Quiet w (m.bind f).world := by
  cases m with
  | ret v w1 => exact quiet_trans h1 (h2 v w1)
  | halt r w1 => exact h1

theorem quiet_ASSERT (p : Platform) (c : Bool) (w : World) : Quiet w (ASSERT p c w).world := by
  rw [ASSERT_world]
  exact quiet_refl w

theorem quiet_newEvents {w w1 : World} (h : Quiet w w1) :
    ∀ e ∈ newEvents w w1, Event.isAllocOrInstall e = false := by
  obtain ⟨evs, t, q⟩ := h
  simpa [newEvents, t] using q

theorem quiet_Usb3NamedEventListen (p : Platform) (Name : ProtocolGuid) (n : NotifyFunction)
    (w : World) : Quiet w (Usb3NamedEventListen p Name n w).world := by
  unfold Usb3NamedEventListen ASSERT_EFI_ERROR
  refine quiet_bind ?_ fun _ w3 => ?_
  · refine quiet_trans ?_ (quiet_ASSERT _ _ _)
    refine quiet_trans (b := w.log (.CreateEvent n (p.CreateEvent w.trace n).1
      (p.CreateEvent w.trace n).2)) (quiet_log _ _ rfl) ?_
    split
    · exact quiet_refl _
    · exact quiet_of_trace_eq rfl
  · refine quiet_bind (quiet_trans ?_ (quiet_ASSERT _ _ _)) (fun _ _ => quiet_refl _)
    apply quiet_log
    rfl

theorem quiet_GetUsb3DebugPortInstance (p : Platform) (w : World) :
    Quiet w (GetUsb3DebugPortInstance p w).2 := by
  unfold GetUsb3DebugPortInstance
  simp only
  split
  · exact quiet_trans (quiet_log w (.DiscoverInitializeUsbDebugPort _) rfl)
      (quiet_of_trace_eq rfl)
  · exact quiet_refl w

theorem quiet_Done (p : Platform) (w : World) :
    Quiet w (DebugCommunicationUsb3DxeConstructor.Done p w).world := by
  unfold DebugCommunicationUsb3DxeConstructor.Done
  split
  · refine quiet_bind (quiet_Usb3NamedEventListen _ _ _ _) fun r w1 => ?_
    split
    · exact quiet_of_trace_eq rfl
    · exact quiet_refl _
  · exact quiet_refl w

/-- A projection of the world that both parts of a sequence keep is kept by the
sequence. -/
theorem keep_bind {α β γ : Type} (g : World → γ) {w : World} {m : Outcome α}
    {f : α → World → Outcome β} (h1 : g m.world = g w) (h2 : ∀ v w1, g (f v w1).world = g w1) :
    g (m.bind f).world = g w := by
  cases m with
  | ret v w1 => exact (h2 v w1).trans h1
  | halt r w1 => exact h1

theorem Usb3NamedEventListen_mUsb3Instance (p : Platform) (Name : ProtocolGuid)
    (n : NotifyFunction) (w : World) :
    (Usb3NamedEventListen p Name n w).world.mUsb3Instance = w.mUsb3Instance := by
  unfold Usb3NamedEventListen ASSERT_EFI_ERROR
  refine keep_bind (fun x => x.mUsb3Instance) ?_ fun _ w3 => ?_
  · simp only [ASSERT_world]
    split <;> rfl
  · refine keep_bind (fun x => x.mUsb3Instance) ?_ fun _ w5 => rfl
    simp only [ASSERT_world]
    rfl

/-- The label `Done` of the constructor does not move the cached pointer. -/
theorem Done_mUsb3Instance (p : Platform) (w : World) :
    (DebugCommunicationUsb3DxeConstructor.Done p w).world.mUsb3Instance = w.mUsb3Instance := by
  unfold DebugCommunicationUsb3DxeConstructor.Done
  split
  · refine keep_bind (fun x => x.mUsb3Instance) (Usb3NamedEventListen_mUsb3Instance _ _ _ _)
      fun r w1 => ?_
    simp only
    split <;> rfl
  · rfl

theorem EfiGetSystemConfigurationTable_of_published {p : Platform} {w : World} {T : Nat}
    (h : published? p w = some T) :
    EfiGetSystemConfigurationTable p.gUsb3DbgGuid w = (EFI_SUCCESS, T) := by
  unfold published? at h
  unfold EfiGetSystemConfigurationTable
  cases hf : w.configTable.find? (fun e => e.1 == p.gUsb3DbgGuid) with
  | none => simp [hf] at h
  | some e =>
    simp [hf] at h
    simp [h]

theorem EfiGetSystemConfigurationTable_of_unpublished {p : Platform} {w : World}
    (h : published? p w = none) :
    EfiGetSystemConfigurationTable p.gUsb3DbgGuid w = (EFI_NOT_FOUND, 0) := by
  unfold published? at h
  unfold EfiGetSystemConfigurationTable
  cases hf : w.configTable.find? (fun e => e.1 == p.gUsb3DbgGuid) with
  | none => rfl
  | some e => simp [hf] at h

/-- When a record is already published, the constructor takes it as the cached
instance and goes to `Done` at once. -/
theorem Constructor_of_published {p : Platform} {w : World} {T : Nat}
    (h : published? p w = some T) :
    DebugCommunicationUsb3DxeConstructor p w
      = DebugCommunicationUsb3DxeConstructor.Done p
          { (GetUsb3DebugPortInstance p w).2 with mUsb3Instance := T } := by
  have hg := EfiGetSystemConfigurationTable_of_published
    ((published_of_frame (frame_GetUsb3DebugPortInstance p w)).trans h)
  unfold DebugCommunicationUsb3DxeConstructor
  simp only [hg]
  simp [EFI_ERROR, EFI_SUCCESS]

theorem Constructor_of_unpublished {p : Platform} {w : World}
    (h : published? p w = none) :
    DebugCommunicationUsb3DxeConstructor p w
      = DebugCommunicationUsb3DxeConstructor.Publish p (GetUsb3DebugPortInstance p w).1
          { (GetUsb3DebugPortInstance p w).2 with mUsb3Instance := 0 } := by
  have hg := EfiGetSystemConfigurationTable_of_unpublished
    ((published_of_frame (frame_GetUsb3DebugPortInstance p w)).trans h)
  unfold DebugCommunicationUsb3DxeConstructor
  simp only [hg]
  simp [EFI_ERROR, EFI_NOT_FOUND]

/-- What `InstallConfigurationTable` does to the published record and to the count
of publishing events. -/
theorem InstallConfigurationTable_spec (p : Platform) (Table : Nat) (w : World) :
    (EFI_ERROR (InstallConfigurationTable p p.gUsb3DbgGuid Table w).1 = true
        ∧ Frame w (InstallConfigurationTable p p.gUsb3DbgGuid Table w).2)
    ∨ (EFI_ERROR (InstallConfigurationTable p p.gUsb3DbgGuid Table w).1 = false
        ∧ published? p (InstallConfigurationTable p p.gUsb3DbgGuid Table w).2 = some Table
        ∧ publishCount (InstallConfigurationTable p p.gUsb3DbgGuid Table w).2.trace
            = publishCount w.trace + 1) := by
  unfold InstallConfigurationTable
  simp only
  by_cases hs : EFI_ERROR (p.InstallConfigurationTableStatus w.trace Table) = true
  · left
    simp only [hs, if_true, true_and]
    simp [Frame, World.log, publishCount, List.countP_append, List.countP_cons,
      Event.isPublish, hs]
  · right
    have hs1 : EFI_ERROR (p.InstallConfigurationTableStatus w.trace Table) = false := by
      simpa using hs
    simp [hs1, published?, World.log, publishCount, List.countP_append, List.countP_cons,
      Event.isPublish]

/-- The publishing part of the constructor either publishes nothing and returns an
error status (or stops), or publishes exactly one record. -/
theorem Publish_spec (p : Platform) (Instance : Nat) (w : World) :
    (Frame w (DebugCommunicationUsb3DxeConstructor.Publish p Instance w).world
        ∧ ∀ st w1, DebugCommunicationUsb3DxeConstructor.Publish p Instance w = .ret st w1 →
            EFI_ERROR st = true)
    ∨ (publishCount (DebugCommunicationUsb3DxeConstructor.Publish p Instance w).world.trace
          = publishCount w.trace + 1
        ∧ ∃ T, published? p (DebugCommunicationUsb3DxeConstructor.Publish p Instance w).world
            = some T) := by
  unfold DebugCommunicationUsb3DxeConstructor.Publish
  simp only
  have f2 : Frame w (if Instance = 0 then w.log (.DiscoverInitializeUsbDebugPort false) else w) := by
    split
    · exact frame_log w _ rfl
    · exact frame_refl w
  generalize (if Instance = 0 then w.log (.DiscoverInitializeUsbDebugPort false) else w) = w2
    at f2 ⊢
  have f3 : Frame w (w2.log (.AllocatePages (EFI_SIZE_TO_PAGES p.sizeofUSB3_DEBUG_PORT_HANDLE)
      SIZE_4GB
      (p.AllocatePages w2.trace (EFI_SIZE_TO_PAGES p.sizeofUSB3_DEBUG_PORT_HANDLE) SIZE_4GB).1
      (p.AllocatePages w2.trace (EFI_SIZE_TO_PAGES p.sizeofUSB3_DEBUG_PORT_HANDLE) SIZE_4GB).2)) :=
    frame_trans f2 (frame_log w2 _ rfl)
  generalize (w2.log (.AllocatePages (EFI_SIZE_TO_PAGES p.sizeofUSB3_DEBUG_PORT_HANDLE)
      SIZE_4GB
      (p.AllocatePages w2.trace (EFI_SIZE_TO_PAGES p.sizeofUSB3_DEBUG_PORT_HANDLE) SIZE_4GB).1
      (p.AllocatePages w2.trace (EFI_SIZE_TO_PAGES p.sizeofUSB3_DEBUG_PORT_HANDLE) SIZE_4GB).2))
    = w3 at f3 ⊢
  generalize (p.AllocatePages w2.trace (EFI_SIZE_TO_PAGES p.sizeofUSB3_DEBUG_PORT_HANDLE)
    SIZE_4GB) = a
  split
  · rename_i ha
    left
    refine ⟨f3, fun st w1 h => ?_⟩
    cases h
    exact ha
  · generalize hw5 : ({ w3.setInstance a.2 (if Instance = 0 then
        p.DiscoverInitializeUsbDebugPort w.trace
          { USB3_DEBUG_PORT_HANDLE.zero with Initialized := p.USB3DBG_UNINITIALIZED }
        else w3.instances Instance) with mUsb3Instance := a.2 } : World) = w5
    have f5 : Frame w w5 := by
      subst hw5
      exact frame_trans f3 ⟨rfl, rfl⟩
    rcases InstallConfigurationTable_spec p a.2 w5 with ⟨he, hf⟩ | ⟨he, hp, hc⟩
    · left
      simp only [he, if_true]
      refine ⟨frame_trans f5 hf, fun st w1 h => ?_⟩
      cases h
      exact he
    · right
      simp only [he]
      have fd := frame_Done p (InstallConfigurationTable p p.gUsb3DbgGuid a.2 w5).2
      refine ⟨?_, a.2, ?_⟩
      · simp only [Bool.false_eq_true, if_false]
        rw [fd.2, hc, f5.2]
      · simp only [Bool.false_eq_true, if_false]
        rw [published_of_frame fd, hp]

theorem frame_Constructor_of_published {p : Platform} {w : World} {T : Nat}
    (h : published? p w = some T) :
    Frame w (DebugCommunicationUsb3DxeConstructor p w).world := by
  rw [Constructor_of_published h]
  exact frame_trans (frame_GetUsb3DebugPortInstance p w)
    (frame_trans ⟨rfl, rfl⟩ (frame_Done p _))

theorem bind_ret_world {α : Type} (m : Outcome α) :
    (m.bind fun _ w1 => Outcome.ret () w1).world = m.world := by
  cases m <;> rfl

/-- Every entry point other than the constructor publishes nothing. -/
theorem frame_step {p : Platform} {a : Action} (ha : a ≠ .Init) (w : World) :
    Frame w (step p a w).world := by
  cases a with
  | Init => exact absurd rfl ha
  | Locate => exact frame_GetUsb3DebugPortInstance p w
  | PciIoNotify e => exact frame_Usb3PciIoNotify p e w
  | ReadyToLockNotify e => exact frame_Usb3DxeSmmReadyToLockNotify p e w
  | Teardown => exact frame_Destructor w

theorem publishedOnce_Constructor {p : Platform} {w : World} (hi : PublishedOnce p w) :
    PublishedOnce p (DebugCommunicationUsb3DxeConstructor p w).world := by
  cases hp : published? p w with
  | some T => exact publishedOnce_of_frame (frame_Constructor_of_published hp) hi
  | none =>
    rw [Constructor_of_unpublished hp]
    have f1 : Frame w ({ (GetUsb3DebugPortInstance p w).2 with mUsb3Instance := 0 } : World) :=
      frame_trans (frame_GetUsb3DebugPortInstance p w) ⟨rfl, rfl⟩
    rcases Publish_spec p (GetUsb3DebugPortInstance p w).1
        { (GetUsb3DebugPortInstance p w).2 with mUsb3Instance := 0 } with ⟨hf, -⟩ | ⟨hc, T, hT⟩
    · exact publishedOnce_of_frame (frame_trans f1 hf) hi
    · have h0 : publishCount w.trace = 0 := hi.1 hp
      rw [f1.2, h0] at hc
      refine ⟨fun hn => ?_, ?_⟩
      · rw [hT] at hn
        cases hn
      · rw [hc]

theorem publishedOnce_step {p : Platform} (a : Action) {w : World} (hi : PublishedOnce p w) :
    PublishedOnce p (step p a w).world := by
  by_cases ha : a = .Init
  · subst ha
    simp only [step, bind_ret_world]
    exact publishedOnce_Constructor hi
  · exact publishedOnce_of_frame (frame_step ha w) hi

theorem published_step {p : Platform} (a : Action) {w : World} {T : Nat}
    (h : published? p w = some T) :
    Frame w (step p a w).world := by
  by_cases ha : a = .Init
  · subst ha
    simp only [step, bind_ret_world]
    exact frame_Constructor_of_published h
  · exact frame_step ha w

theorem run_cons_world (p : Platform) (a : Action) (rest : List Action) (w : World) :
    (run p (a :: rest) w).world = (step p a w).world
      ∨ (run p (a :: rest) w).world = (run p rest (step p a w).world).world := by
  rw [run]
  cases step p a w with
  | ret v w1 => exact Or.inr rfl
  | halt r w1 => exact Or.inl rfl

theorem publishedOnce_run {p : Platform} (actions : List Action) :
    ∀ w, PublishedOnce p w → PublishedOnce p (run p actions w).world := by
  induction actions with
  | nil => intro w hi; exact hi
  | cons a rest ih =>
    intro w hi
    rcases run_cons_world p a rest w with h | h
    · rw [h]
      exact publishedOnce_step a hi
    · rw [h]
      exact ih _ (publishedOnce_step a hi)

theorem published_run {p : Platform} {T : Nat} (actions : List Action) :
    ∀ w, published? p w = some T → Frame w (run p actions w).world := by
  induction actions with
  | nil => intro w _; exact frame_refl w
  | cons a rest ih =>
    intro w hp
    have f1 := published_step a hp
    rcases run_cons_world p a rest w with h | h
    · rw [h]
      exact f1
    · rw [h]
      exact frame_trans f1 (ih _ ((published_of_frame f1).trans hp))

/-- A constructor that returns without an error leaves a published record. -/
theorem Constructor_success_published {p : Platform} {w w1 : World} {st : EFI_STATUS}
    (h : DebugCommunicationUsb3DxeConstructor p w = .ret st w1) (hs : EFI_ERROR st = false) :
    ∃ T, published? p w1 = some T := by
  have hw : (DebugCommunicationUsb3DxeConstructor p w).world = w1 := by rw [h]; rfl
  cases hp : published? p w with
  | some T =>
    refine ⟨T, ?_⟩
    rw [← hw, published_of_frame (frame_Constructor_of_published hp), hp]
  | none =>
    rw [Constructor_of_unpublished hp] at h hw
    rcases Publish_spec p (GetUsb3DebugPortInstance p w).1
        { (GetUsb3DebugPortInstance p w).2 with mUsb3Instance := 0 } with ⟨-, he⟩ | ⟨-, T, hT⟩
    · rw [he st w1 h] at hs
      cases hs
    · exact ⟨T, by rw [← hw]; exact hT⟩

/-- C3.  Start from a world in which nothing is published under the GUID of the
debug port, and run any sequence of entry points with any number of `Init ()`
among them.  Then at most one record was ever installed in the configuration table;
an `Init ()` that returns without an error leaves a record published; and once a
record `T` is published it stays the published record whatever runs afterwards, no
further record is installed, and every further `Init ()` takes `T` itself as the
cached instance without allocating memory and without installing a table. -/
theorem Constructor_publishes_at_most_once (p : Platform) (w0 : World)
    (hfresh : published? p w0 = none ∧ publishCount w0.trace = 0) (actions : List Action) :
    publishCount (run p actions w0).world.trace ≤ 1
    ∧ (∀ st w1, DebugCommunicationUsb3DxeConstructor p (run p actions w0).world = .ret st w1 →
        EFI_ERROR st = false → ∃ T, published? p w1 = some T)
    ∧ (∀ T, published? p (run p actions w0).world = some T →
        (∀ more, published? p (run p more (run p actions w0).world).world = some T
          ∧ publishCount (run p more (run p actions w0).world).world.trace
            = publishCount (run p actions w0).world.trace)
        ∧ (DebugCommunicationUsb3DxeConstructor p (run p actions w0).world).world.mUsb3Instance
            = T
        ∧ ∀ e ∈ newEvents (run p actions w0).world
              (DebugCommunicationUsb3DxeConstructor p (run p actions w0).world).world,
            Event.isAllocOrInstall e = false) := by
  have hi : PublishedOnce p (run p actions w0).world :=
    publishedOnce_run actions w0 ⟨fun _ => hfresh.2, by rw [hfresh.2]; exact Nat.zero_le 1⟩
  refine ⟨hi.2, fun st w1 h hs => Constructor_success_published h hs, fun T hT => ⟨?_, ?_, ?_⟩⟩
  · intro more
    have f := published_run more _ hT
    exact ⟨(published_of_frame f).trans hT, f.2⟩
  · rw [Constructor_of_published hT, Done_mUsb3Instance]
  · rw [Constructor_of_published hT]
    exact quiet_newEvents (quiet_trans (quiet_GetUsb3DebugPortInstance p _)
      (quiet_trans (quiet_of_trace_eq rfl) (quiet_Done p _)))

/-- C3, witness: three `Init ()` on the demo platform after boot publish the record
at `0x9000` exactly once, and the third one adopts it. -/
theorem Constructor_publishes_at_most_once_witness :
    (published? demoPlatform bootWorld = none ∧ publishCount bootWorld.trace = 0)
    ∧ publishCount (run demoPlatform [.Init, .Init] bootWorld).world.trace = 1
    ∧ published? demoPlatform (run demoPlatform [.Init, .Init] bootWorld).world = some 0x9000
    ∧ (DebugCommunicationUsb3DxeConstructor demoPlatform
        (run demoPlatform [.Init, .Init] bootWorld).world).world.mUsb3Instance = 0x9000
    ∧ publishCount (run demoPlatform [.Init, .Init] bootWorld).world.trace ≤ 1 :=
  ⟨by decide, by decide, by decide, by decide,
    (Constructor_publishes_at_most_once demoPlatform bootWorld (by decide)
      [.Init, .Init]).1⟩

/-! ## Which events each function appends -/

theorem only_refl (P : Event → Prop) (w : World) : Only P w w := ⟨[], by simp, by simp⟩

theorem only_trans {P : Event → Prop} {a b c : World} (h1 : Only P a b) (h2 : Only P b c) :
    Only P a c := by
  obtain ⟨e1, t1, q1⟩ := h1
  obtain ⟨e2, t2, q2⟩ := h2
  refine ⟨e1 ++ e2, by rw [t2, t1, List.append_assoc], ?_⟩
  intro e he
  rcases List.mem_append.1 he with h | h
  · exact q1 e h
  · exact q2 e h

theorem only_log {P : Event → Prop} (w : World) (e : Event) (he : P e) : Only P w (w.log e) :=
  ⟨[e], rfl, by simpa using he⟩

theorem only_of_trace_eq {P : Event → Prop} {w w1 : World} (h : w1.trace = w.trace) :
    Only P w w1 :=
  ⟨[], by simp [h], by simp⟩

theorem only_bind {P : Event → Prop} {α β : Type} {w : World} {m : Outcome α}
    {f : α → World → Outcome β}
    (h1 : Only P w m.world) (h2 : ∀ v w1, Only P w1 (f v w1).world) :
    Only P w (m.bind f).world := by
  cases m with
  | ret v w1 => exact only_trans h1 (h2 v w1)
  | halt r w1 => exact h1

theorem only_ASSERT (P : Event → Prop) (p : Platform) (c : Bool) (w : World) :
    Only P w (ASSERT p c w).world := by
  rw [ASSERT_world]
  exact only_refl P w

theorem only_newEvents {P : Event → Prop} {w w1 : World} (h : Only P w w1) :
    ∀ e ∈ newEvents w w1, P e := by
  obtain ⟨evs, t, q⟩ := h
  simpa [newEvents, t] using q

theorem only_CloseEvent {P : Event → Prop} (hB : ∀ e, Event.isBringup e = false → P e)
    (e : Nat) (w : World) : Only P w (CloseEvent e w) :=
  ⟨[.CloseEvent e], rfl, by simpa using hB (.CloseEvent e) rfl⟩

theorem only_setInNotify {P : Event → Prop} (hB : ∀ e, Event.isBringup e = false → P e)
    (b : Bool) (w : World) : Only P w (setInNotify b w) :=
  ⟨[.SetInNotify b], rfl, by simpa using hB (.SetInNotify b) rfl⟩

theorem only_Usb3MapOneDmaBuffer {P : Event → Prop}
    (hB : ∀ e, Event.isBringup e = false → P e) (p : Platform) (PciIo : EFI_PCI_IO_PROTOCOL)
    (a n : Nat) (w : World) : Only P w (Usb3MapOneDmaBuffer p PciIo a n w).world := by
  unfold Usb3MapOneDmaBuffer ASSERT_EFI_ERROR
  refine only_bind (only_trans ?_ (only_ASSERT _ _ _ _)) (fun _ _ => only_ASSERT _ _ _ _)
  apply only_log
  exact hB _ rfl

theorem only_Usb3MapDmaBuffers {P : Event → Prop}
    (hB : ∀ e, Event.isBringup e = false → P e) (p : Platform) (i : Nat)
    (PciIo : EFI_PCI_IO_PROTOCOL) (w : World) :
    Only P w (Usb3MapDmaBuffers p i PciIo w).world := by
  unfold Usb3MapDmaBuffers
  refine only_bind (only_Usb3MapOneDmaBuffer hB _ _ _ _ _) fun _ _ => ?_
  refine only_bind (only_Usb3MapOneDmaBuffer hB _ _ _ _ _) fun _ _ => ?_
  refine only_bind (only_Usb3MapOneDmaBuffer hB _ _ _ _ _) fun _ _ => ?_
  refine only_bind (only_Usb3MapOneDmaBuffer hB _ _ _ _ _) fun _ _ => ?_
  refine only_bind (only_Usb3MapOneDmaBuffer hB _ _ _ _ _) fun _ _ => ?_
  refine only_bind (only_Usb3MapOneDmaBuffer hB _ _ _ _ _) fun _ _ => ?_
  exact only_Usb3MapOneDmaBuffer hB _ _ _ _ _

theorem only_Usb3NamedEventListen {P : Event → Prop}
    (hB : ∀ e, Event.isBringup e = false → P e) (p : Platform) (Name : ProtocolGuid)
    (n : NotifyFunction) (w : World) : Only P w (Usb3NamedEventListen p Name n w).world := by
  unfold Usb3NamedEventListen ASSERT_EFI_ERROR
  refine only_bind ?_ fun _ w3 => ?_
  · refine only_trans ?_ (only_ASSERT _ _ _ _)
    refine only_trans (b := w.log (.CreateEvent n (p.CreateEvent w.trace n).1
      (p.CreateEvent w.trace n).2)) (only_log _ _ (hB (.CreateEvent _ _ _) rfl)) ?_
    split
    · exact only_refl _ _
    · exact only_of_trace_eq rfl
  · refine only_bind (only_trans ?_ (only_ASSERT _ _ _ _)) (fun _ _ => only_refl _ _)
    apply only_log
    exact hB _ rfl

theorem only_found {P : Event → Prop} (hB : ∀ e, Event.isBringup e = false → P e)
    (p : Platform) (Ev : Nat) (PciIo : EFI_PCI_IO_PROTOCOL) (w : World) :
    Only P w (Usb3PciIoNotify.found p Ev PciIo w).world := by
  unfold Usb3PciIoNotify.found
  refine only_bind (only_ASSERT _ _ _ _) fun _ w0 => ?_
  split
  · exact only_refl _ _
  · refine only_bind
      (only_trans (only_setInNotify hB true w0) (only_Usb3MapDmaBuffers hB _ _ _ _))
      fun _ w1 => ?_
    simp only
    split
    · refine only_trans (only_setInNotify hB false w1) ?_
      exact only_bind (only_trans (only_of_trace_eq rfl) (only_Usb3NamedEventListen hB _ _ _ _))
        fun _ w3 => only_CloseEvent hB _ _
    · exact only_trans (only_setInNotify hB false w1) (only_CloseEvent hB _ _)

theorem only_loop {P : Event → Prop} (hB : ∀ e, Event.isBringup e = false → P e)
    (p : Platform) (Ev : Nat) (l : List EFI_PCI_IO_PROTOCOL) (w : World) :
    Only P w (Usb3PciIoNotify.loop p Ev l w).world := by
  induction l with
  | nil => exact only_refl _ w
  | cons PciIo rest ih =>
    unfold Usb3PciIoNotify.loop
    split
    · exact only_found hB _ _ _ _
    · exact ih

theorem only_Usb3PciIoNotify {P : Event → Prop} (hB : ∀ e, Event.isBringup e = false → P e)
    (p : Platform) (Ev : Nat) (w : World) : Only P w (Usb3PciIoNotify p Ev w).world := by
  have hl : Only P w (w.log (.LocateHandleBuffer (p.LocateHandleBuffer w.trace).1
      ((p.LocateHandleBuffer w.trace).2.getD []).length)) :=
    only_log w _ (hB (.LocateHandleBuffer _ _) rfl)
  unfold Usb3PciIoNotify
  simp only
  split
  · exact hl
  · split
    · exact only_bind (only_trans hl (only_loop hB _ _ _ _))
        (fun _ w2 => only_log w2 .FreePool (hB _ rfl))
    · exact hl

theorem only_Destructor {P : Event → Prop} (hB : ∀ e, Event.isBringup e = false → P e)
    (w : World) : Only P w (DebugCommunicationUsb3DxeDestructor w).2 := by
  unfold DebugCommunicationUsb3DxeDestructor
  split
  · exact only_trans (only_CloseEvent hB _ w) (only_of_trace_eq rfl)
  · exact only_refl _ w

theorem setInNotify_flag (b : Bool) (w : World) :
    ((setInNotify b w).instances (setInNotify b w).mUsb3Instance).InNotify = b := by
  simp [setInNotify, World.setInstance, World.log]

theorem only_Usb3DxeSmmReadyToLockNotify {P : Event → Prop}
    (hB : ∀ e, Event.isBringup e = false → P e) (hI : P (.InitializeUsbDebugHardware true))
    (p : Platform) (Ev : Nat) (w : World) :
    Only P w (Usb3DxeSmmReadyToLockNotify p Ev w).world := by
  unfold Usb3DxeSmmReadyToLockNotify
  refine only_bind (only_ASSERT _ _ _ _) fun _ w0 => ?_
  split
  · exact only_refl _ _
  · refine only_trans (only_setInNotify hB true w0) ?_
    refine only_trans (b := callInitializeUsbDebugHardware p (setInNotify true w0).mUsb3Instance
      (setInNotify true w0)) ?_ ?_
    · refine ⟨[.InitializeUsbDebugHardware true], ?_, by simpa using hI⟩
      simp [callInitializeUsbDebugHardware, World.setInstance, World.log, setInNotify_flag]
    · exact only_trans (only_log _ (.MicroSecondDelay 1000000) (hB _ rfl))
        (only_trans (only_setInNotify hB false _) (only_CloseEvent hB _ _))

theorem only_GetUsb3DebugPortInstance {P : Event → Prop}
    (hD : P (.DiscoverInitializeUsbDebugPort false)) (p : Platform) (w : World) :
    Only P w (GetUsb3DebugPortInstance p w).2 := by
  unfold GetUsb3DebugPortInstance
  simp only
  split
  · rename_i h
    refine ⟨[.DiscoverInitializeUsbDebugPort false], ?_, by simpa using hD⟩
    simp [callDiscoverInitializeUsbDebugPort, World.setInstance, World.log, h.2]
  · exact only_refl _ w

theorem only_Done {P : Event → Prop} (hB : ∀ e, Event.isBringup e = false → P e)
    (p : Platform) (w : World) :
    Only P w (DebugCommunicationUsb3DxeConstructor.Done p w).world := by
  unfold DebugCommunicationUsb3DxeConstructor.Done
  split
  · refine only_bind (only_Usb3NamedEventListen hB _ _ _ _) fun r w1 => ?_
    split
    · exact only_of_trace_eq rfl
    · exact only_refl _ _
  · exact only_refl _ w

theorem only_InstallConfigurationTable {P : Event → Prop}
    (hB : ∀ e, Event.isBringup e = false → P e) (p : Platform) (g t : Nat) (w : World) :
    Only P w (InstallConfigurationTable p g t w).2 := by
  unfold InstallConfigurationTable
  simp only
  split
  · exact only_log w _ (hB (.InstallConfigurationTable _ _) rfl)
  · exact only_trans (only_log w _ (hB (.InstallConfigurationTable _ _) rfl))
      (only_of_trace_eq rfl)

theorem only_Publish {P : Event → Prop} (hB : ∀ e, Event.isBringup e = false → P e)
    (hD : P (.DiscoverInitializeUsbDebugPort false)) (p : Platform) (Instance : Nat)
    (w : World) : Only P w (DebugCommunicationUsb3DxeConstructor.Publish p Instance w).world := by
  unfold DebugCommunicationUsb3DxeConstructor.Publish
  simp only
  have f2 : Only P w (if Instance = 0 then w.log (.DiscoverInitializeUsbDebugPort false)
      else w) := by
    split
    · exact only_log w _ hD
    · exact only_refl _ w
  generalize (if Instance = 0 then w.log (.DiscoverInitializeUsbDebugPort false) else w) = w2
    at f2 ⊢
  have f3 : Only P w (w2.log (.AllocatePages (EFI_SIZE_TO_PAGES p.sizeofUSB3_DEBUG_PORT_HANDLE)
      SIZE_4GB
      (p.AllocatePages w2.trace (EFI_SIZE_TO_PAGES p.sizeofUSB3_DEBUG_PORT_HANDLE) SIZE_4GB).1
      (p.AllocatePages w2.trace (EFI_SIZE_TO_PAGES p.sizeofUSB3_DEBUG_PORT_HANDLE) SIZE_4GB).2)) :=
    only_trans f2 (only_log w2 _ (hB (.AllocatePages _ _ _ _) rfl))
  generalize (w2.log (.AllocatePages (EFI_SIZE_TO_PAGES p.sizeofUSB3_DEBUG_PORT_HANDLE)
      SIZE_4GB
      (p.AllocatePages w2.trace (EFI_SIZE_TO_PAGES p.sizeofUSB3_DEBUG_PORT_HANDLE) SIZE_4GB).1
      (p.AllocatePages w2.trace (EFI_SIZE_TO_PAGES p.sizeofUSB3_DEBUG_PORT_HANDLE) SIZE_4GB).2))
    = w3 at f3 ⊢
  generalize (p.AllocatePages w2.trace (EFI_SIZE_TO_PAGES p.sizeofUSB3_DEBUG_PORT_HANDLE)
    SIZE_4GB) = a
  split
  · exact f3
  · generalize hw5 : ({ w3.setInstance a.2 (if Instance = 0 then
        p.DiscoverInitializeUsbDebugPort w.trace
          { USB3_DEBUG_PORT_HANDLE.zero with Initialized := p.USB3DBG_UNINITIALIZED }
        else w3.instances Instance) with mUsb3Instance := a.2 } : World) = w5
    have f5 : Only P w w5 := by
      subst hw5
      exact only_trans f3 (only_of_trace_eq rfl)
    refine only_trans f5 ?_
    split
    · exact only_InstallConfigurationTable hB _ _ _ _
    · exact only_trans (only_InstallConfigurationTable hB _ _ _ _) (only_Done hB _ _)

theorem only_Constructor {P : Event → Prop} (hB : ∀ e, Event.isBringup e = false → P e)
    (hD : P (.DiscoverInitializeUsbDebugPort false)) (p : Platform) (w : World) :
    Only P w (DebugCommunicationUsb3DxeConstructor p w).world := by
  unfold DebugCommunicationUsb3DxeConstructor
  simp only
  have hl := only_GetUsb3DebugPortInstance hD p w
  split
  · refine only_trans hl (only_trans ?_ (only_Done hB p _))
    exact only_of_trace_eq rfl
  · refine only_trans hl (only_trans ?_ (only_Publish hB hD p _ _))
    exact only_of_trace_eq rfl

theorem only_step {P : Event → Prop} (hB : ∀ e, Event.isBringup e = false → P e)
    (hD : P (.DiscoverInitializeUsbDebugPort false)) (hI : P (.InitializeUsbDebugHardware true))
    (p : Platform) (a : Action) (w : World) : Only P w (step p a w).world := by
  cases a with
  | Init =>
    simp only [step, bind_ret_world]
    exact only_Constructor hB hD p w
  | Locate => exact only_GetUsb3DebugPortInstance hD p w
  | PciIoNotify e => exact only_Usb3PciIoNotify hB p e w
  | ReadyToLockNotify e => exact only_Usb3DxeSmmReadyToLockNotify hB hI p e w
  | Teardown => exact only_Destructor hB w

theorem only_run {P : Event → Prop} (hB : ∀ e, Event.isBringup e = false → P e)
    (hD : P (.DiscoverInitializeUsbDebugPort false)) (hI : P (.InitializeUsbDebugHardware true))
    (p : Platform) (actions : List Action) : ∀ w, Only P w (run p actions w).world := by
  induction actions with
  | nil => intro w; exact only_refl _ w
  | cons a rest ih =>
    intro w
    rcases run_cons_world p a rest w with h | h
    · rw [h]
      exact only_step hB hD hI p a w
    · rw [h]
      exact only_trans (only_step hB hD hI p a w) (ih _)

/-! ## The lock handler and `Locate ()` -/

/-- With a cached instance the lock handler returns, and this is the world it
returns in. -/
theorem Usb3DxeSmmReadyToLockNotify_eq (p : Platform) (Ev : Nat) (w : World)
    (h : w.mUsb3Instance ≠ 0) :
    Usb3DxeSmmReadyToLockNotify p Ev w
      = .ret () (CloseEvent Ev (setInNotify false
          ((callInitializeUsbDebugHardware p w.mUsb3Instance (setInNotify true w)).log
            (.MicroSecondDelay 1000000)))) := by
  unfold Usb3DxeSmmReadyToLockNotify
  have ha : ASSERT p (decide (w.mUsb3Instance ≠ 0)) w = .ret () w := by
    simp [ASSERT, h]
  rw [ha]
  simp only [Outcome.bind, h, if_false]
  rfl

theorem Usb3DxeSmmReadyToLockNotify_trace (p : Platform) (Ev : Nat) (w : World) :
    (CloseEvent Ev (setInNotify false
        ((callInitializeUsbDebugHardware p w.mUsb3Instance (setInNotify true w)).log
          (.MicroSecondDelay 1000000)))).trace
      = w.trace ++ [.SetInNotify true, .InitializeUsbDebugHardware true,
          .MicroSecondDelay 1000000, .SetInNotify false, .CloseEvent Ev] := by
  simp [CloseEvent, setInNotify, callInitializeUsbDebugHardware, World.log, World.setInstance]

theorem newEvents_of_trace {w w1 : World} {evs : List Event} (h : w1.trace = w.trace ++ evs) :
    newEvents w w1 = evs := by
  simp [newEvents, h]

/-- The `Locate ()` function does nothing but return the pointer while the flag of
the located instance is set. -/
theorem GetUsb3DebugPortInstance_guarded (p : Platform) (w : World)
    (h : (w.instances (GetUsb3DebugPortInstance.Instance p w)).InNotify = true) :
    GetUsb3DebugPortInstance p w = (GetUsb3DebugPortInstance.Instance p w, w) := by
  unfold GetUsb3DebugPortInstance
  simp [h]

/-! ## C4: the flag `InNotify` and the bring-up calls -/

/-- C4, counterexample to the claim as stated.  `Locate ()` on a cached instance
whose flag is clear enters the bring-up `DiscoverInitializeUsbDebugPort` with
`InNotify` false and leaves it false; `Init ()` after boot brings up its fresh
instance with `InNotify` false; and the appearance handler holds `InNotify` true
from before its first map request until after its last one, without any bring-up
call in between. -/
theorem InNotify_false_during_bringup :
    (newEvents cachedWorld (GetUsb3DebugPortInstance demoPlatform cachedWorld).2
        = [.DiscoverInitializeUsbDebugPort false]
      ∧ ((GetUsb3DebugPortInstance demoPlatform cachedWorld).2.instances 0x9000).InNotify = false)
    ∧ newEvents bootWorld (DebugCommunicationUsb3DxeConstructor demoPlatform bootWorld).world
        = [.DiscoverInitializeUsbDebugPort false, .AllocatePages 1 0x100000000 0 0x9000,
            .InstallConfigurationTable 0x9000 0, .CreateEvent .Usb3PciIoNotify 0 0x50,
            .RegisterProtocolNotify .gEfiPciIoProtocolGuid 0x50 0]
    ∧ newEvents cachedWorld (Usb3PciIoNotify demoPlatform 0x50 cachedWorld).world
        = [.LocateHandleBuffer 0 1, .SetInNotify true,
            .Map 7 0x10000 2056 0 0x10000, .Map 7 0x11000 4096 0 0x11000,
            .Map 7 0x12000 4096 0 0x12000, .Map 7 0x13000 8192 0 0x13000,
            .Map 7 0x15000 16 0 0x15000, .Map 7 0x16000 192 0 0x16000,
            .Map 7 0x17000 60 0 0x17000, .SetInNotify false,
            .CreateEvent .Usb3DxeSmmReadyToLockNotify 0 0x51,
            .RegisterProtocolNotify .gEfiDxeSmmReadyToLockProtocolGuid 0x51 0,
            .CloseEvent 0x50, .FreePool] := by
  decide

/-- C4, the amended claim.  Along every execution of the entry points, every
`InitializeUsbDebugHardware` is entered with `InNotify` true and every
`DiscoverInitializeUsbDebugPort` is entered with `InNotify` false.  The lock handler
sets the flag, runs the bring-up and the settle delay under it, and clears it
before it closes its event and returns.  `Locate ()` does not touch an instance
whose flag is set. -/
theorem InNotify_guards_bringup (p : Platform) (w : World) :
    (∀ actions, ∀ e ∈ newEvents w (run p actions w).world, Event.guardOK e)
    ∧ (∀ Ev, w.mUsb3Instance ≠ 0 →
        ∃ w1, Usb3DxeSmmReadyToLockNotify p Ev w = .ret () w1
          ∧ newEvents w w1 = [.SetInNotify true, .InitializeUsbDebugHardware true,
              .MicroSecondDelay 1000000, .SetInNotify false, .CloseEvent Ev]
          ∧ (w1.instances w1.mUsb3Instance).InNotify = false)
    ∧ ((w.instances (GetUsb3DebugPortInstance.Instance p w)).InNotify = true →
        (GetUsb3DebugPortInstance p w).2 = w) := by
  refine ⟨fun actions => ?_, fun Ev h => ?_, fun h => ?_⟩
  · have hB : ∀ e, Event.isBringup e = false → Event.guardOK e := by
      intro e he
      cases e <;> trivial
    have hD : Event.guardOK (.DiscoverInitializeUsbDebugPort false) := rfl
    have hI : Event.guardOK (.InitializeUsbDebugHardware true) := rfl
    exact only_newEvents (only_run hB hD hI p actions w)
  · refine ⟨_, Usb3DxeSmmReadyToLockNotify_eq p Ev w h,
      newEvents_of_trace (Usb3DxeSmmReadyToLockNotify_trace p Ev w), ?_⟩
    simp [CloseEvent, setInNotify, World.setInstance, World.log, callInitializeUsbDebugHardware]
  · rw [GetUsb3DebugPortInstance_guarded p w h]

/-- C4, witness: the lock handler on the cached demo instance. -/
theorem InNotify_guards_bringup_witness :
    cachedWorld.mUsb3Instance ≠ 0
    ∧ ∃ w1, Usb3DxeSmmReadyToLockNotify demoPlatform 0x51 cachedWorld = .ret () w1
        ∧ newEvents cachedWorld w1 = [.SetInNotify true, .InitializeUsbDebugHardware true,
            .MicroSecondDelay 1000000, .SetInNotify false, .CloseEvent 0x51]
        ∧ (w1.instances w1.mUsb3Instance).InNotify = false :=
  ⟨by decide, (InNotify_guards_bringup demoPlatform cachedWorld).2.1 0x51 (by decide)⟩

/-! ## The appearance handler -/

/-- The `for` loop acts on the first interface at the expected address and on no
other: it is `found` on that interface, and nothing when there is none. -/
theorem loop_eq_find (p : Platform) (Ev : Nat) (l : List EFI_PCI_IO_PROTOCOL) (w : World) :
    Usb3PciIoNotify.loop p Ev l w
      = match l.find? (isUsb3DebugPort p) with
        | none => .ret () w
        | some PciIo => Usb3PciIoNotify.found p Ev PciIo w := by
  induction l with
  | nil => rfl
  | cons PciIo rest ih =>
    unfold Usb3PciIoNotify.loop
    by_cases h : PciAddress PciIo.GetLocation = p.PcdUsbXhciPciAddress
    · simp [h, List.find?, isUsb3DebugPort]
    · simp [h, List.find?, isUsb3DebugPort, ih]

/-- The handler in terms of the handle list it walks. -/
theorem Usb3PciIoNotify_eq (p : Platform) (Ev : Nat) (w : World) :
    Usb3PciIoNotify p Ev w
      = match (enumeratedHandles p w).find? (isUsb3DebugPort p) with
        | none =>
          if (enumeratedHandles p w).isEmpty then
            .ret () (w.log (.LocateHandleBuffer (p.LocateHandleBuffer w.trace).1
              ((p.LocateHandleBuffer w.trace).2.getD []).length))
          else
            .ret () ((w.log (.LocateHandleBuffer (p.LocateHandleBuffer w.trace).1
              ((p.LocateHandleBuffer w.trace).2.getD []).length)).log .FreePool)
        | some PciIo =>
          (Usb3PciIoNotify.found p Ev PciIo
            (w.log (.LocateHandleBuffer (p.LocateHandleBuffer w.trace).1
              ((p.LocateHandleBuffer w.trace).2.getD []).length))).bind fun _ w2 =>
          .ret () (w2.log .FreePool) := by
  unfold Usb3PciIoNotify enumeratedHandles
  simp only
  cases h2 : (p.LocateHandleBuffer w.trace).2 with
  | none => simp
  | some l =>
    simp only
    by_cases hc : (!EFI_ERROR (p.LocateHandleBuffer w.trace).1 && l.length != 0) = true
    · have hne : l ≠ [] := by
        intro h
        simp [h] at hc
      simp only [hc, if_true, loop_eq_find]
      cases hf : l.find? (isUsb3DebugPort p) with
      | none => simp [hne, Outcome.bind, List.isEmpty_iff]
      | some PciIo => simp
    · simp [hc]

/-- What a returning `Usb3NamedEventListen` did. -/
theorem Usb3NamedEventListen_eq_ret {p : Platform} {Name : ProtocolGuid} {n : NotifyFunction}
    {w w1 : World} {r : EFI_STATUS × Nat} (h : Usb3NamedEventListen p Name n w = .ret r w1) :
    w1.trace = w.trace ++ listenEvents p Name n w.trace
      ∧ w1.instances = w.instances ∧ w1.mUsb3Instance = w.mUsb3Instance
      ∧ w1.mUsb3PciIo.map (fun i => i.This) = w.mUsb3PciIo.map (fun i => i.This)
      ∧ r.2 = (p.CreateEvent w.trace n).2 := by
  unfold Usb3NamedEventListen ASSERT_EFI_ERROR at h
  obtain ⟨_, w3, h1, h⟩ := bind_eq_ret h
  obtain ⟨rfl, -⟩ := ASSERT_eq_ret h1
  obtain ⟨_, w5, h2, h⟩ := bind_eq_ret h
  obtain ⟨rfl, -⟩ := ASSERT_eq_ret h2
  cases h
  refine ⟨?_, ?_, ?_, ?_, rfl⟩ <;> split <;> simp [World.log, listenEvents]

/-- A returning `Usb3MapDmaBuffers` extended the trace by seven map requests. -/
theorem Usb3MapDmaBuffers_trace {p : Platform} {Instance : Nat} {PciIo : EFI_PCI_IO_PROTOCOL}
    {w w1 : World} {u : Unit} (h : Usb3MapDmaBuffers p Instance PciIo w = .ret u w1) :
    ∃ maps, w1.trace = w.trace ++ maps
      ∧ maps.map Event.request?
        = (dmaBufferRequests p (w.instances Instance) w.String0DescAddress).map
            (fun r => some (PciIo.This, r.1, r.2))
      ∧ w.sameState w1 := by
  have ho : Only (fun _ => True) w (Usb3MapDmaBuffers p Instance PciIo w).world :=
    only_Usb3MapDmaBuffers (fun _ _ => trivial) p Instance PciIo w
  rw [h] at ho
  obtain ⟨maps, ht, -⟩ := ho
  replace ht : w1.trace = w.trace ++ maps := ht
  obtain ⟨hr, hs⟩ := Usb3MapDmaBuffers_eq_ret h
  rw [newEvents_of_trace ht] at hr
  exact ⟨maps, ht, hr, hs⟩

theorem dmaBufferRequests_setInNotify (p : Platform) (b : Bool) (w : World) :
    dmaBufferRequests p ((setInNotify b w).instances w.mUsb3Instance)
        (setInNotify b w).String0DescAddress
      = dmaBufferRequests p (w.instances w.mUsb3Instance) w.String0DescAddress := by
  simp [dmaBufferRequests, setInNotify, World.setInstance, World.log]

/-- What a returning `found` did: it set the flag, issued the seven map requests of
the cached instance through the matching interface, cleared the flag, for an
instance from a HOB recorded the interface and registered the lock handler, and
closed the event of the handler.  It entered no bring-up routine. -/
theorem found_eq_ret {p : Platform} {Ev : Nat} {PciIo : EFI_PCI_IO_PROTOCOL} {w w1 : World}
    {u : Unit} (h : Usb3PciIoNotify.found p Ev PciIo w = .ret u w1) :
    w.mUsb3Instance ≠ 0
    ∧ (∃ maps, w1.trace = w.trace ++ (.SetInNotify true :: maps ++ .SetInNotify false ::
          ((if (w.instances w.mUsb3Instance).FromHob then
              listenEvents p .gEfiDxeSmmReadyToLockProtocolGuid .Usb3DxeSmmReadyToLockNotify
                (w.trace ++ (.SetInNotify true :: maps ++ [.SetInNotify false]))
            else []) ++ [.CloseEvent Ev]))
        ∧ maps.map Event.request?
          = (dmaBufferRequests p (w.instances w.mUsb3Instance) w.String0DescAddress).map
              (fun r => some (PciIo.This, r.1, r.2)))
    ∧ w1.mUsb3Instance = w.mUsb3Instance
    ∧ w1.instances w.mUsb3Instance = { w.instances w.mUsb3Instance with InNotify := false }
    ∧ ((w.instances w.mUsb3Instance).FromHob = true →
        w1.mUsb3PciIo.map (fun i => i.This) = some PciIo.This) := by
  unfold Usb3PciIoNotify.found at h
  obtain ⟨_, w0, h1, h2⟩ := bind_eq_ret h
  clear h
  obtain ⟨rfl, -⟩ := ASSERT_eq_ret h1
  by_cases hz : w0.mUsb3Instance = 0
  · simp [hz] at h2
  · simp only [hz, if_false] at h2
    obtain ⟨_, wm, hm, h3⟩ := bind_eq_ret h2
    clear h2
    obtain ⟨maps, ht, hr, hs⟩ := Usb3MapDmaBuffers_trace hm
    rw [dmaBufferRequests_setInNotify] at hr
    obtain ⟨-, s2, -, s4, -, -, -, -⟩ := hs
    have hmi : wm.mUsb3Instance = w0.mUsb3Instance := s2.symm
    have hinst : wm.instances = Function.update w0.instances w0.mUsb3Instance
        { w0.instances w0.mUsb3Instance with InNotify := true } := s4.symm
    have htr : wm.trace = w0.trace ++ (.SetInNotify true :: maps) := by
      rw [ht]
      simp [setInNotify, World.setInstance, World.log]
    have hfrom : ((setInNotify false wm).instances (setInNotify false wm).mUsb3Instance).FromHob
        = (w0.instances w0.mUsb3Instance).FromHob := by
      simp [setInNotify, World.setInstance, World.log, hmi, hinst]
    simp only [hfrom] at h3
    refine ⟨hz, ⟨maps, ?_, hr⟩, ?_⟩
    · by_cases hf : (w0.instances w0.mUsb3Instance).FromHob = true
      · simp only [hf, if_true] at h3 ⊢
        obtain ⟨r, w3, hl, h4⟩ := bind_eq_ret h3
        cases h4
        obtain ⟨t3, -⟩ := Usb3NamedEventListen_eq_ret hl
        simp [CloseEvent, World.log, t3, setInNotify, World.setInstance, htr]
      · simp only [hf, if_false] at h3 ⊢
        cases h3
        simp [CloseEvent, World.log, setInNotify, World.setInstance, htr]
    · by_cases hf : (w0.instances w0.mUsb3Instance).FromHob = true
      · simp only [hf, if_true] at h3
        obtain ⟨r, w3, hl, h4⟩ := bind_eq_ret h3
        cases h4
        obtain ⟨-, i3, m3, p3, -⟩ := Usb3NamedEventListen_eq_ret hl
        refine ⟨?_, ?_, fun _ => ?_⟩
        · simp [CloseEvent, World.log, m3, setInNotify, World.setInstance, hmi]
        · simp [CloseEvent, World.log, i3, setInNotify, World.setInstance, hmi, hinst]
        · simpa [CloseEvent, World.log] using p3
      · simp only [hf, if_false] at h3
        cases h3
        refine ⟨?_, ?_, fun hc => absurd hc hf⟩
        · simp [CloseEvent, World.log, setInNotify, World.setInstance, hmi]
        · simp [CloseEvent, World.log, setInNotify, World.setInstance, hmi, hinst]

theorem filterMap_of_map_some {α β : Type} (f : α → Option β) :
    ∀ (l : List α) (l1 : List β), l.map f = l1.map some → l.filterMap f = l1 := by
  intro l
  induction l with
  | nil =>
    intro l1 h
    cases l1 with
    | nil => rfl
    | cons b t => simp at h
  | cons a t ih =>
    intro l1 h
    cases l1 with
    | nil => simp at h
    | cons b t1 =>
      simp only [List.map_cons, List.cons.injEq] at h
      simp [List.filterMap_cons, h.1, ih t1 h.2]

theorem not_mem_of_map_some {α β : Type} (f : α → Option β) (l : List α) (l1 : List β)
    (h : l.map f = l1.map some) (a : α) (ha : f a = none) : a ∉ l := by
  intro hm
  have : f a ∈ l.map f := List.mem_map_of_mem f hm
  rw [h, ha] at this
  simp at this

/-- The handler when it returns after a match: the events it appended, and what it
left in the instance and in `mUsb3PciIo`. -/
theorem Usb3PciIoNotify_matched {p : Platform} {Ev : Nat} {w w1 : World} {u : Unit}
    {PciIo : EFI_PCI_IO_PROTOCOL}
    (hf : (enumeratedHandles p w).find? (isUsb3DebugPort p) = some PciIo)
    (h : Usb3PciIoNotify p Ev w = .ret u w1) :
    ∃ maps listen, newEvents w w1
        = .LocateHandleBuffer (p.LocateHandleBuffer w.trace).1
            ((p.LocateHandleBuffer w.trace).2.getD []).length
          :: .SetInNotify true :: maps ++ .SetInNotify false :: listen
            ++ [.CloseEvent Ev, .FreePool]
      ∧ maps.map Event.request?
        = (dmaBufferRequests p (w.instances w.mUsb3Instance) w.String0DescAddress).map
            (fun r => some (PciIo.This, r.1, r.2))
      ∧ ((w.instances w.mUsb3Instance).FromHob = false → listen = [])
      ∧ ((w.instances w.mUsb3Instance).FromHob = true →
          (∃ t, listen = listenEvents p .gEfiDxeSmmReadyToLockProtocolGuid
            .Usb3DxeSmmReadyToLockNotify t)
          ∧ w1.mUsb3PciIo.map (fun i => i.This) = some PciIo.This)
      ∧ w.mUsb3Instance ≠ 0 ∧ w1.mUsb3Instance = w.mUsb3Instance
      ∧ w1.instances w.mUsb3Instance = { w.instances w.mUsb3Instance with InNotify := false } := by
  rw [Usb3PciIoNotify_eq, hf] at h
  obtain ⟨_, wf, h1, h2⟩ := bind_eq_ret h
  cases h2
  obtain ⟨hz, ⟨maps, ht, hr⟩, hm, hi, hp⟩ := found_eq_ret h1
  refine ⟨maps,
    (if (w.instances w.mUsb3Instance).FromHob then
      listenEvents p .gEfiDxeSmmReadyToLockProtocolGuid .Usb3DxeSmmReadyToLockNotify
        ((w.log (.LocateHandleBuffer (p.LocateHandleBuffer w.trace).1
          ((p.LocateHandleBuffer w.trace).2.getD []).length)).trace
          ++ (.SetInNotify true :: maps ++ [.SetInNotify false]))
    else []), ?_, hr, ?_, ?_, hz, hm, hi⟩
  · apply newEvents_of_trace
    simp only [World.log] at ht ⊢
    rw [ht]
    simp only [List.append_assoc, List.cons_append, List.singleton_append, List.nil_append]
  · intro hF
    simp [hF]
  · intro hF
    refine ⟨⟨_, if_pos hF⟩, ?_⟩
    simpa [World.log] using hp hF

/-- The handler when no enumerated interface sits at the expected address. -/
theorem Usb3PciIoNotify_unmatched {p : Platform} {w : World} (Ev : Nat)
    (hf : (enumeratedHandles p w).find? (isUsb3DebugPort p) = none) :
    ∃ w1, Usb3PciIoNotify p Ev w = .ret () w1 ∧ w1.openEvents = w.openEvents
      ∧ (newEvents w w1 = [.LocateHandleBuffer (p.LocateHandleBuffer w.trace).1
            ((p.LocateHandleBuffer w.trace).2.getD []).length]
        ∨ newEvents w w1 = [.LocateHandleBuffer (p.LocateHandleBuffer w.trace).1
            ((p.LocateHandleBuffer w.trace).2.getD []).length, .FreePool]) := by
  rw [Usb3PciIoNotify_eq, hf]
  simp only
  split
  · exact ⟨_, rfl, rfl, Or.inl (newEvents_of_trace rfl)⟩
  · refine ⟨_, rfl, rfl, Or.inr (newEvents_of_trace ?_)⟩
    simp [World.log]

theorem find_of_split (p : Platform) (pre : List EFI_PCI_IO_PROTOCOL)
    (PciIo : EFI_PCI_IO_PROTOCOL) (post : List EFI_PCI_IO_PROTOCOL)
    (hpre : ∀ x ∈ pre, PciAddress x.GetLocation ≠ p.PcdUsbXhciPciAddress)
    (hm : PciAddress PciIo.GetLocation = p.PcdUsbXhciPciAddress) :
    (pre ++ PciIo :: post).find? (isUsb3DebugPort p) = some PciIo := by
  induction pre with
  | nil => simp [List.find?, isUsb3DebugPort, hm]
  | cons a t ih =>
    have ha : PciAddress a.GetLocation ≠ p.PcdUsbXhciPciAddress := hpre a (List.mem_cons_self a t)
    simp only [List.cons_append, List.find?, isUsb3DebugPort, ha, decide_False]
    exact ih (fun x hx => hpre x (List.mem_cons_of_mem a hx))

theorem find_none_of_all (p : Platform) (l : List EFI_PCI_IO_PROTOCOL)
    (h : ∀ x ∈ l, PciAddress x.GetLocation ≠ p.PcdUsbXhciPciAddress) :
    l.find? (isUsb3DebugPort p) = none := by
  rw [List.find?_eq_none]
  intro x hx
  simp [isUsb3DebugPort, h x hx]

theorem returned_bind {α β : Type} {m : Outcome α} {f : α → World → Outcome β}
    (h1 : m.returned = true) (h2 : ∀ v w, (f v w).returned = true) :
    (m.bind f).returned = true := by
  cases m with
  | ret v w => exact h2 v w
  | halt r w => cases h1

theorem Usb3NamedEventListen_disabled {p : Platform} (hp : p.assertEnabled = false)
    (Name : ProtocolGuid) (n : NotifyFunction) (w : World) :
    (Usb3NamedEventListen p Name n w).returned = true := by
  simp [Usb3NamedEventListen, ASSERT_EFI_ERROR, ASSERT_disabled hp, Outcome.bind,
    Outcome.returned]

theorem found_disabled {p : Platform} (hp : p.assertEnabled = false) (Ev : Nat)
    (PciIo : EFI_PCI_IO_PROTOCOL) (w : World) (hz : w.mUsb3Instance ≠ 0) :
    (Usb3PciIoNotify.found p Ev PciIo w).returned = true := by
  unfold Usb3PciIoNotify.found
  rw [ASSERT_disabled hp]
  simp only [Outcome.bind, hz, if_false]
  refine returned_bind (Usb3MapDmaBuffers_disabled hp _ _ _) fun _ w1 => ?_
  split
  · exact returned_bind (Usb3NamedEventListen_disabled hp _ _ _) fun _ _ => rfl
  · rfl

/-- With asserts built out and an instance cached, the handler always returns. -/
theorem Usb3PciIoNotify_disabled {p : Platform} (hp : p.assertEnabled = false) (Ev : Nat)
    (w : World) (hz : w.mUsb3Instance ≠ 0) : (Usb3PciIoNotify p Ev w).returned = true := by
  rw [Usb3PciIoNotify_eq]
  split
  · split <;> rfl
  · exact returned_bind (found_disabled hp Ev _ _ hz) fun _ _ => rfl

theorem exists_ret_of_returned {α : Type} {m : Outcome α} (h : m.returned = true) :
    ∃ v w, m = .ret v w := by
  cases m with
  | ret v w => exact ⟨v, w, rfl⟩
  | halt r w => cases h

/-! ## C5: when the appearance handler closes its event -/

/-- C5, counterexample to the claim as stated.  When the handle list holds no
controller at the expected address, when it is empty, and when the enumeration
fails, the handler returns without a `CloseEvent`, and its event `0x50` is still
open. -/
theorem Usb3PciIoNotify_leaves_watch_registered :
    ((Usb3PciIoNotify (platformWithHandles (EFI_SUCCESS, some [otherPciIo])) 0x50
          watchingWorld).returned = true
      ∧ newEvents watchingWorld (Usb3PciIoNotify
          (platformWithHandles (EFI_SUCCESS, some [otherPciIo])) 0x50 watchingWorld).world
        = [.LocateHandleBuffer 0 1, .FreePool]
      ∧ (Usb3PciIoNotify (platformWithHandles (EFI_SUCCESS, some [otherPciIo])) 0x50
          watchingWorld).world.openEvents = [0x50])
    ∧ ((Usb3PciIoNotify (platformWithHandles (EFI_SUCCESS, some [])) 0x50
          watchingWorld).returned = true
      ∧ newEvents watchingWorld (Usb3PciIoNotify
          (platformWithHandles (EFI_SUCCESS, some [])) 0x50 watchingWorld).world
        = [.LocateHandleBuffer 0 0]
      ∧ (Usb3PciIoNotify (platformWithHandles (EFI_SUCCESS, some [])) 0x50
          watchingWorld).world.openEvents = [0x50])
    ∧ ((Usb3PciIoNotify (platformWithHandles (EFI_NOT_FOUND, none)) 0x50
          watchingWorld).returned = true
      ∧ newEvents watchingWorld (Usb3PciIoNotify
          (platformWithHandles (EFI_NOT_FOUND, none)) 0x50 watchingWorld).world
        = [.LocateHandleBuffer EFI_NOT_FOUND 0]
      ∧ (Usb3PciIoNotify (platformWithHandles (EFI_NOT_FOUND, none)) 0x50
          watchingWorld).world.openEvents = [0x50]) := by
  decide

/-- C5, the amended claim.  A returning appearance handler has closed its own event
exactly when the enumeration answered without an error with a non-empty handle list
that holds a controller at the expected address.  In every other case (no match,
empty list, failed enumeration) it returns without closing any event and leaves the
open events as they were, so the watch stays registered. -/
theorem Usb3PciIoNotify_closes_event_iff_matched (p : Platform) (Ev : Nat) (w : World) :
    (∀ w1, Usb3PciIoNotify p Ev w = .ret () w1 →
      (Event.CloseEvent Ev ∈ newEvents w w1
        ↔ ((enumeratedHandles p w).find? (isUsb3DebugPort p)).isSome = true))
    ∧ ((enumeratedHandles p w).find? (isUsb3DebugPort p) = none →
        ∃ w1, Usb3PciIoNotify p Ev w = .ret () w1 ∧ w1.openEvents = w.openEvents
          ∧ ∀ e, Event.CloseEvent e ∉ newEvents w w1) := by
  have hnone : (enumeratedHandles p w).find? (isUsb3DebugPort p) = none →
      ∃ w1, Usb3PciIoNotify p Ev w = .ret () w1 ∧ w1.openEvents = w.openEvents
        ∧ ∀ e, Event.CloseEvent e ∉ newEvents w w1 := by
    intro hf
    obtain ⟨w1, h1, ho, ht⟩ := Usb3PciIoNotify_unmatched Ev hf
    refine ⟨w1, h1, ho, fun e => ?_⟩
    rcases ht with ht | ht <;> simp [ht]
  refine ⟨fun w1 h => ?_, hnone⟩
  cases hf : (enumeratedHandles p w).find? (isUsb3DebugPort p) with
  | none =>
    obtain ⟨w2, h2, -, hc⟩ := hnone hf
    rw [h] at h2
    cases h2
    simp [hc Ev]
  | some PciIo =>
    obtain ⟨maps, listen, ht, -⟩ := Usb3PciIoNotify_matched hf h
    simp [ht]

/-- C5, witness: on the demo platform the handler returns after a match and has
closed its event `0x50`. -/
theorem Usb3PciIoNotify_closes_event_iff_matched_witness :
    ∃ w1, Usb3PciIoNotify demoPlatform 0x50 watchingWorld = .ret () w1
      ∧ (Event.CloseEvent 0x50 ∈ newEvents watchingWorld w1
        ↔ ((enumeratedHandles demoPlatform watchingWorld).find?
            (isUsb3DebugPort demoPlatform)).isSome = true)
      ∧ Event.CloseEvent 0x50 ∈ newEvents watchingWorld w1 := by
  obtain ⟨u, w1, h⟩ := exists_ret_of_returned
    (show (Usb3PciIoNotify demoPlatform 0x50 watchingWorld).returned = true by decide)
  have hi := (Usb3PciIoNotify_closes_event_iff_matched demoPlatform 0x50 watchingWorld).1 w1 h
  exact ⟨w1, h, hi, hi.2 (by decide)⟩

/-! ## C6: the first matching controller -/

/-- For bus, device and function numbers in the PCI range the casts of `PciAddress`
cut nothing off. -/
theorem PciAddress_eq (Segment Bus Device Function : Nat) (hB : Bus < 256) (hD : Device < 32)
    (hF : Function < 8) :
    PciAddress (Segment, Bus, Device, Function)
      = (Bus <<< 20) ||| (Device <<< 15) ||| (Function <<< 12) := by
  have h1 : Bus <<< 20 < 2 ^ 28 := by
    rw [Nat.shiftLeft_eq]
    omega
  have h2 : Device <<< 15 < 2 ^ 28 := by
    rw [Nat.shiftLeft_eq]
    omega
  have h3 : Function <<< 12 < 2 ^ 28 := by
    rw [Nat.shiftLeft_eq]
    omega
  have h4 : (Bus <<< 20) ||| (Device <<< 15) ||| (Function <<< 12) < 2 ^ 28 :=
    Nat.or_lt_two_pow (Nat.or_lt_two_pow h1 h2) h3
  unfold PciAddress
  simp only
  rw [Nat.mod_eq_of_lt (lt_trans h1 (by decide)), Nat.mod_eq_of_lt (lt_trans h2 (by decide)),
    Nat.mod_eq_of_lt (lt_trans h3 (by decide)), Nat.mod_eq_of_lt (lt_trans h4 (by decide))]

/-- C6.  The appearance handler computes the address of a handle in the PCI range as
`bus << 20 | device << 15 | function << 12`.  Its loop over a handle list acts on the
first handle whose address equals the expected one and is then the matched branch
on that handle, whatever handles follow it.  When the handler returns after such a
match, the map requests it issued are exactly the seven requests of the cached
instance, once each, all through that handle, and it has closed its event.  When no
handle has the expected address the handler returns and has issued no map request.
With `ASSERT` built out and an instance cached the handler always returns. -/
theorem Usb3PciIoNotify_first_match (p : Platform) (Ev : Nat) (w : World) :
    (∀ Segment Bus Device Function, Bus < 256 → Device < 32 → Function < 8 →
        PciAddress (Segment, Bus, Device, Function)
          = (Bus <<< 20) ||| (Device <<< 15) ||| (Function <<< 12))
    ∧ (∀ pre PciIo post w0,
        (∀ x ∈ pre, PciAddress x.GetLocation ≠ p.PcdUsbXhciPciAddress) →
        PciAddress PciIo.GetLocation = p.PcdUsbXhciPciAddress →
        Usb3PciIoNotify.loop p Ev (pre ++ PciIo :: post) w0
          = Usb3PciIoNotify.found p Ev PciIo w0)
    ∧ (∀ pre PciIo post w1, enumeratedHandles p w = pre ++ PciIo :: post →
        (∀ x ∈ pre, PciAddress x.GetLocation ≠ p.PcdUsbXhciPciAddress) →
        PciAddress PciIo.GetLocation = p.PcdUsbXhciPciAddress →
        Usb3PciIoNotify p Ev w = .ret () w1 →
        (newEvents w w1).filterMap Event.request?
            = (dmaBufferRequests p (w.instances w.mUsb3Instance) w.String0DescAddress).map
                (fun r => (PciIo.This, r.1, r.2))
          ∧ Event.CloseEvent Ev ∈ newEvents w w1)
    ∧ ((∀ x ∈ enumeratedHandles p w, PciAddress x.GetLocation ≠ p.PcdUsbXhciPciAddress) →
        ∃ w1, Usb3PciIoNotify p Ev w = .ret () w1
          ∧ (newEvents w w1).filterMap Event.request? = [])
    ∧ (p.assertEnabled = false → w.mUsb3Instance ≠ 0 →
        (Usb3PciIoNotify p Ev w).returned = true) := by
  refine ⟨PciAddress_eq, ?_, ?_, ?_, fun hp hz => Usb3PciIoNotify_disabled hp Ev w hz⟩
  · intro pre PciIo post w0 hpre hm
    rw [loop_eq_find, find_of_split p pre PciIo post hpre hm]
  · intro pre PciIo post w1 he hpre hm h
    have hf : (enumeratedHandles p w).find? (isUsb3DebugPort p) = some PciIo := by
      rw [he]
      exact find_of_split p pre PciIo post hpre hm
    obtain ⟨maps, listen, ht, hr, hl0, hl1, -⟩ := Usb3PciIoNotify_matched hf h
    have hmaps := filterMap_of_map_some Event.request? maps
      ((dmaBufferRequests p (w.instances w.mUsb3Instance) w.String0DescAddress).map
        (fun r => (PciIo.This, r.1, r.2))) (by rw [hr, List.map_map]; rfl)
    have hlisten : listen.filterMap Event.request? = [] := by
      by_cases hF : (w.instances w.mUsb3Instance).FromHob = true
      · obtain ⟨⟨t, hl⟩, -⟩ := hl1 hF
        rw [hl]
        rfl
      · rw [hl0 (by simpa using hF)]
        rfl
    constructor
    · rw [ht]
      simp [List.filterMap_cons, List.filterMap_append, Event.request?, hmaps, hlisten]
    · rw [ht]
      simp
  · intro hall
    obtain ⟨w1, h1, -, ht⟩ := Usb3PciIoNotify_unmatched Ev (find_none_of_all p _ hall)
    refine ⟨w1, h1, ?_⟩
    rcases ht with ht | ht <;> rw [ht] <;> rfl

/-- C6, witness: the controller at bus 0, device 29, function 0 has the address
`29 << 15`, the expected one on the demo platform, where the handler returns after
mapping the seven buffers through it (interface 7) and closing its event. -/
theorem Usb3PciIoNotify_first_match_witness :
    PciAddress (0, 0, 29, 0) = 29 <<< 15
    ∧ demoPlatform.PcdUsbXhciPciAddress = 29 <<< 15
    ∧ ∃ w1, Usb3PciIoNotify demoPlatform 0x50 watchingWorld = .ret () w1
      ∧ (newEvents watchingWorld w1).filterMap Event.request?
        = [(7, 0x10000, 2056), (7, 0x11000, 4096), (7, 0x12000, 4096), (7, 0x13000, 8192),
            (7, 0x15000, 16), (7, 0x16000, 192), (7, 0x17000, 60)]
      ∧ Event.CloseEvent 0x50 ∈ newEvents watchingWorld w1 := by
  refine ⟨by decide, by decide, ?_⟩
  obtain ⟨u, w1, h⟩ := exists_ret_of_returned
    (show (Usb3PciIoNotify demoPlatform 0x50 watchingWorld).returned = true by decide)
  have hm := (Usb3PciIoNotify_first_match demoPlatform 0x50 watchingWorld).2.2.1
    [] identityPciIo [] w1 rfl (by simp) (by decide) h
  refine ⟨w1, h, ?_, hm.2⟩
  rw [hm.1]
  decide

/-! ## C7: what the appearance handler does for an adopted instance -/

/-- C7, counterexample to the claim as stated.  For the ready demo instance adopted
from a HOB and a matching controller, the appearance handler returns without having
entered any bring-up routine: it mapped the buffers and registered the lock
handler. -/
theorem Usb3PciIoNotify_invokes_no_bringup :
    (watchingWorld.instances watchingWorld.mUsb3Instance).FromHob = true
    ∧ (watchingWorld.instances watchingWorld.mUsb3Instance).Ready = true
    ∧ ((enumeratedHandles demoPlatform watchingWorld).find?
        (isUsb3DebugPort demoPlatform)).isSome = true
    ∧ (Usb3PciIoNotify demoPlatform 0x50 watchingWorld).returned = true
    ∧ (newEvents watchingWorld (Usb3PciIoNotify demoPlatform 0x50 watchingWorld).world).filter
        Event.isBringup = []
    ∧ newEvents watchingWorld (Usb3PciIoNotify demoPlatform 0x50 watchingWorld).world
        = [.LocateHandleBuffer 0 1, .SetInNotify true,
            .Map 7 0x10000 2056 0 0x10000, .Map 7 0x11000 4096 0 0x11000,
            .Map 7 0x12000 4096 0 0x12000, .Map 7 0x13000 8192 0 0x13000,
            .Map 7 0x15000 16 0 0x15000, .Map 7 0x16000 192 0 0x16000,
            .Map 7 0x17000 60 0 0x17000, .SetInNotify false,
            .CreateEvent .Usb3DxeSmmReadyToLockNotify 0 0x51,
            .RegisterProtocolNotify .gEfiDxeSmmReadyToLockProtocolGuid 0x51 0,
            .CloseEvent 0x50, .FreePool] := by
  decide

/-- C7, the amended claim.  The appearance handler never enters a bring-up routine.
For an instance adopted from a HOB, when a matching controller is present and the
handler returns, it has issued the seven map requests of the instance through that
controller, recorded the controller in `mUsb3PciIo`, created an event for
`Usb3DxeSmmReadyToLockNotify` and registered it for the lock protocol, and left the
instance record as it was with `InNotify` clear. -/
theorem Usb3PciIoNotify_remaps_and_defers_bringup (p : Platform) (Ev : Nat) (w : World) :
    (∀ e ∈ newEvents w (Usb3PciIoNotify p Ev w).world, Event.isBringup e = false)
    ∧ (∀ PciIo w1, (enumeratedHandles p w).find? (isUsb3DebugPort p) = some PciIo →
        (w.instances w.mUsb3Instance).FromHob = true →
        Usb3PciIoNotify p Ev w = .ret () w1 →
        (newEvents w w1).filterMap Event.request?
            = (dmaBufferRequests p (w.instances w.mUsb3Instance) w.String0DescAddress).map
                (fun r => (PciIo.This, r.1, r.2))
          ∧ w1.mUsb3PciIo.map (fun i => i.This) = some PciIo.This
          ∧ (∃ St E St1, Event.CreateEvent .Usb3DxeSmmReadyToLockNotify St E ∈ newEvents w w1
              ∧ Event.RegisterProtocolNotify .gEfiDxeSmmReadyToLockProtocolGuid E St1
                  ∈ newEvents w w1)
          ∧ w1.mUsb3Instance = w.mUsb3Instance
          ∧ w1.instances w.mUsb3Instance
              = { w.instances w.mUsb3Instance with InNotify := false }) := by
  constructor
  · exact only_newEvents (only_Usb3PciIoNotify (fun e he => he) p Ev w)
  · intro PciIo w1 hf hF h
    obtain ⟨maps, listen, ht, hr, -, hl1, -, hm, hi⟩ := Usb3PciIoNotify_matched hf h
    obtain ⟨⟨t, hl⟩, hp⟩ := hl1 hF
    have hmaps := filterMap_of_map_some Event.request? maps
      ((dmaBufferRequests p (w.instances w.mUsb3Instance) w.String0DescAddress).map
        (fun r => (PciIo.This, r.1, r.2))) (by rw [hr, List.map_map]; rfl)
    have hlisten : listen.filterMap Event.request? = [] := by
      rw [hl]
      rfl
    refine ⟨?_, hp,
      ⟨(p.CreateEvent t .Usb3DxeSmmReadyToLockNotify).1,
        (p.CreateEvent t .Usb3DxeSmmReadyToLockNotify).2,
        p.RegisterProtocolNotify (t ++ [.CreateEvent .Usb3DxeSmmReadyToLockNotify
            (p.CreateEvent t .Usb3DxeSmmReadyToLockNotify).1
            (p.CreateEvent t .Usb3DxeSmmReadyToLockNotify).2])
          .gEfiDxeSmmReadyToLockProtocolGuid (p.CreateEvent t .Usb3DxeSmmReadyToLockNotify).2,
        ?_, ?_⟩, hm, hi⟩
    · rw [ht]
      simp [List.filterMap_cons, List.filterMap_append, Event.request?, hmaps, hlisten]
    · rw [ht, hl]
      simp only [listenEvents]
      simp
    · rw [ht, hl]
      simp only [listenEvents]
      simp

/-- C7, witness: the handler on the demo platform and the adopted demo instance. -/
theorem Usb3PciIoNotify_remaps_and_defers_bringup_witness :
    ∃ w1, Usb3PciIoNotify demoPlatform 0x50 watchingWorld = .ret () w1
      ∧ (newEvents watchingWorld w1).filterMap Event.request?
        = [(7, 0x10000, 2056), (7, 0x11000, 4096), (7, 0x12000, 4096), (7, 0x13000, 8192),
            (7, 0x15000, 16), (7, 0x16000, 192), (7, 0x17000, 60)]
      ∧ w1.mUsb3PciIo.map (fun i => i.This) = some 7
      ∧ (w1.instances 0x9000).InNotify = false := by
  obtain ⟨u, w1, h⟩ := exists_ret_of_returned
    (show (Usb3PciIoNotify demoPlatform 0x50 watchingWorld).returned = true by decide)
  obtain ⟨a, b, -, -, e⟩ :=
    (Usb3PciIoNotify_remaps_and_defers_bringup demoPlatform 0x50 watchingWorld).2
      identityPciIo w1 rfl (by decide) h
  refine ⟨w1, h, ?_, b, ?_⟩
  · rw [a]
    decide
  · have e1 : w1.instances 0x9000
        = { watchingWorld.instances 0x9000 with InNotify := false } := e
    rw [e1]

/-! ## C8: the lock handler -/

/-- C8.  On a cached instance (from a HOB or not) one execution of the lock handler
returns; it entered the hardware bring-up exactly once, with `InNotify` set, then
waited exactly 1000000 microseconds, then cleared `InNotify` and closed its event.
The record it leaves is the one the bring-up routine produced with `InNotify`
cleared, so the handler itself wrote no other field, no other record changed, and
the instance is as ready as the bring-up routine left it. -/
theorem Usb3DxeSmmReadyToLockNotify_spec (p : Platform) (Ev : Nat) (w : World)
    (hinst : w.mUsb3Instance ≠ 0) :
    ∃ w1, Usb3DxeSmmReadyToLockNotify p Ev w = .ret () w1
      ∧ newEvents w w1 = [.SetInNotify true, .InitializeUsbDebugHardware true,
          .MicroSecondDelay 1000000, .SetInNotify false, .CloseEvent Ev]
      ∧ (newEvents w w1).filter Event.isBringup = [.InitializeUsbDebugHardware true]
      ∧ w1.mUsb3Instance = w.mUsb3Instance
      ∧ (w1.instances w.mUsb3Instance).InNotify = false
      ∧ w1.instances w.mUsb3Instance
          = { p.InitializeUsbDebugHardware (w.trace ++ [.SetInNotify true])
                { w.instances w.mUsb3Instance with InNotify := true } with InNotify := false }
      ∧ (∀ a, a ≠ w.mUsb3Instance → w1.instances a = w.instances a)
      ∧ ((∀ t h, (p.InitializeUsbDebugHardware t h).Ready = h.Ready) →
          (w1.instances w.mUsb3Instance).Ready = (w.instances w.mUsb3Instance).Ready) := by
  have ht := newEvents_of_trace (Usb3DxeSmmReadyToLockNotify_trace p Ev w)
  refine ⟨_, Usb3DxeSmmReadyToLockNotify_eq p Ev w hinst, ht, ?_, ?_, ?_, ?_, ?_, ?_⟩
  · rw [ht]
    rfl
  · simp [CloseEvent, setInNotify, World.setInstance, World.log, callInitializeUsbDebugHardware]
  · simp [CloseEvent, setInNotify, World.setInstance, World.log, callInitializeUsbDebugHardware]
  · simp [CloseEvent, setInNotify, World.setInstance, World.log, callInitializeUsbDebugHardware]
  · intro a ha
    simp [CloseEvent, setInNotify, World.setInstance, World.log, callInitializeUsbDebugHardware,
      Function.update, ha]
  · intro hR
    simp [CloseEvent, setInNotify, World.setInstance, World.log, callInitializeUsbDebugHardware,
      hR]

/-- C8, witness: the lock handler on the cached demo instance, which is from a HOB
and ready, and stays ready. -/
theorem Usb3DxeSmmReadyToLockNotify_spec_witness :
    cachedWorld.mUsb3Instance ≠ 0
    ∧ (cachedWorld.instances cachedWorld.mUsb3Instance).FromHob = true
    ∧ ((Usb3DxeSmmReadyToLockNotify demoPlatform 0x51 cachedWorld).world.instances 0x9000).Ready
        = true
    ∧ ∃ w1, Usb3DxeSmmReadyToLockNotify demoPlatform 0x51 cachedWorld = .ret () w1
        ∧ newEvents cachedWorld w1 = [.SetInNotify true, .InitializeUsbDebugHardware true,
            .MicroSecondDelay 1000000, .SetInNotify false, .CloseEvent 0x51]
        ∧ (w1.instances cachedWorld.mUsb3Instance).InNotify = false := by
  obtain ⟨w1, h, t, -, -, f, -⟩ :=
    Usb3DxeSmmReadyToLockNotify_spec demoPlatform 0x51 cachedWorld (by decide)
  exact ⟨by decide, by decide, by decide, w1, h, t, f⟩

/-! ## C10: `Locate ()` -/

/-- C10.  The function `GetUsb3DebugPortInstance` returns the cached instance when
one is cached; otherwise the data of the first HOB with the GUID of the debug port
when the HOB list holds one; otherwise `NULL`.  It enters
`DiscoverInitializeUsbDebugPort` on the returned instance, once, exactly when the
pointer is not `NULL` and `InNotify` of the instance is false; when no instance was
found or `InNotify` is true it changes nothing and calls nothing. -/
theorem GetUsb3DebugPortInstance_spec (p : Platform) (w : World) :
    (w.mUsb3Instance ≠ 0 → (GetUsb3DebugPortInstance p w).1 = w.mUsb3Instance)
    ∧ (w.mUsb3Instance = 0 → ∀ e, w.hobList.find? (fun e => e.1 == p.gUsb3DbgGuid) = some e →
        e.2 ≠ 0 → (GetUsb3DebugPortInstance p w).1 = GET_GUID_HOB_DATA e.2)
    ∧ (w.mUsb3Instance = 0 → w.hobList.find? (fun e => e.1 == p.gUsb3DbgGuid) = none →
        (GetUsb3DebugPortInstance p w).1 = 0)
    ∧ ((GetUsb3DebugPortInstance p w).1 ≠ 0
        ∧ (w.instances (GetUsb3DebugPortInstance p w).1).InNotify = false →
        (GetUsb3DebugPortInstance p w).2
            = callDiscoverInitializeUsbDebugPort p (GetUsb3DebugPortInstance p w).1 w
          ∧ newEvents w (GetUsb3DebugPortInstance p w).2
            = [.DiscoverInitializeUsbDebugPort false])
    ∧ ((GetUsb3DebugPortInstance p w).1 = 0
        ∨ (w.instances (GetUsb3DebugPortInstance p w).1).InNotify = true →
        (GetUsb3DebugPortInstance p w).2 = w) := by
  have h1 : (GetUsb3DebugPortInstance p w).1 = GetUsb3DebugPortInstance.Instance p w := by
    unfold GetUsb3DebugPortInstance
    simp only
    split <;> rfl
  rw [h1]
  refine ⟨fun hc => ?_, fun hc e he hz => ?_, fun hc hn => ?_, fun hg => ?_, fun hg => ?_⟩
  · simp [GetUsb3DebugPortInstance.Instance, hc]
  · simp [GetUsb3DebugPortInstance.Instance, hc, GetFirstGuidHob, he, hz]
  · simp [GetUsb3DebugPortInstance.Instance, hc, GetFirstGuidHob, hn]
  · have h2 : (GetUsb3DebugPortInstance p w).2
        = callDiscoverInitializeUsbDebugPort p (GetUsb3DebugPortInstance.Instance p w) w := by
      unfold GetUsb3DebugPortInstance
      simp only
      rw [if_pos hg]
    rw [h2]
    refine ⟨rfl, newEvents_of_trace ?_⟩
    simp [callDiscoverInitializeUsbDebugPort, World.setInstance, World.log, hg.2]
  · have h2 : ¬ (GetUsb3DebugPortInstance.Instance p w ≠ 0
        ∧ (w.instances (GetUsb3DebugPortInstance.Instance p w)).InNotify = false) := by
      rintro ⟨a, b⟩
      rcases hg with hg | hg
      · exact a hg
      · rw [hg] at b
        cases b
    unfold GetUsb3DebugPortInstance
    simp only
    rw [if_neg h2]

/-- C10, witness: the cached instance wins; without a cache the first HOB of the
debug port (at `0x8000`, data at `0x8018`) is returned and brought up; without
either nothing is returned and nothing is called. -/
theorem GetUsb3DebugPortInstance_spec_witness :
    (GetUsb3DebugPortInstance demoPlatform cachedWorld).1 = 0x9000
    ∧ (GetUsb3DebugPortInstance demoPlatform hobWorld).1 = 0x8018
    ∧ newEvents hobWorld (GetUsb3DebugPortInstance demoPlatform hobWorld).2
        = [.DiscoverInitializeUsbDebugPort false]
    ∧ (GetUsb3DebugPortInstance demoPlatform bootWorld).1 = 0
    ∧ newEvents bootWorld (GetUsb3DebugPortInstance demoPlatform bootWorld).2 = [] := by
  have a := (GetUsb3DebugPortInstance_spec demoPlatform cachedWorld).1 (by decide)
  have b := (GetUsb3DebugPortInstance_spec demoPlatform hobWorld).2.1 rfl
    (0xB2A56F4D, 0x8000) (by decide) (by decide)
  have c := (GetUsb3DebugPortInstance_spec demoPlatform hobWorld).2.2.2.1 (by decide)
  have d := (GetUsb3DebugPortInstance_spec demoPlatform bootWorld).2.2.1 rfl (by decide)
  have e := (GetUsb3DebugPortInstance_spec demoPlatform bootWorld).2.2.2.2 (Or.inl d)
  refine ⟨a, b, c.2, d, ?_⟩
  rw [e]
  exact newEvents_self bootWorld

/-! ## C9: `PciIoEvent` and the appearance watch -/

/-- C9, the code at the failing input.  After `Init ()` on the booted demo platform
the watch event `0x50` is open and recorded in `PciIoEvent`.  After the appearance
handler found the controller, the event is closed (no event is open) but
`PciIoEvent` still holds `0x50`; `Teardown ()` then closes `0x50` again, so the
trace holds one `CreateEvent` for it and two `CloseEvent`. -/
theorem PciIoEvent_stale_after_match :
    (((run demoPlatform [.Init] bootWorld).world.instances 0x9000).PciIoEvent = 0x50
      ∧ (run demoPlatform [.Init] bootWorld).world.openEvents = [0x50])
    ∧ ((run demoPlatform [.Init, .PciIoNotify 0x50] bootWorld).returned = true
      ∧ (run demoPlatform [.Init, .PciIoNotify 0x50] bootWorld).world.mUsb3Instance = 0x9000
      ∧ ((run demoPlatform [.Init, .PciIoNotify 0x50] bootWorld).world.instances 0x9000).PciIoEvent
          = 0x50
      ∧ (run demoPlatform [.Init, .PciIoNotify 0x50] bootWorld).world.openEvents = [])
    ∧ (newEvents (run demoPlatform [.Init, .PciIoNotify 0x50] bootWorld).world
          (DebugCommunicationUsb3DxeDestructor
            (run demoPlatform [.Init, .PciIoNotify 0x50] bootWorld).world).2
        = [.CloseEvent 0x50]
      ∧ (run demoPlatform [.Init, .PciIoNotify 0x50, .Teardown] bootWorld).world.trace.count
          (.CloseEvent 0x50) = 2
      ∧ ((run demoPlatform [.Init, .PciIoNotify 0x50, .Teardown] bootWorld).world.trace.filter
          (fun e => e matches .CreateEvent _ _ _)).length = 1) := by
  decide!

end Usb3Dxe

namespace UefiLibAcpi

/-! ## Reading memory and walking entries -/

theorem ReadUint8_lt (m : Memory) (a : Nat) : ReadUint8 m a < 256 :=
  Nat.mod_lt _ (by decide)

theorem ReadUint32_lt (m : Memory) (a : Nat) : ReadUint32 m a < 2 ^ 32 := by
  have h0 := ReadUint8_lt m a
  have h1 := ReadUint8_lt m (a + 1)
  have h2 := ReadUint8_lt m (a + 2)
  have h3 := ReadUint8_lt m (a + 3)
  unfold ReadUint32
  omega

theorem entrySlots_eq_range (Size : Nat) :
    ∀ n Base, entrySlots Base Size n = (List.range n).map (fun i => Base + Size * i) := by
  intro n
  induction n with
  | zero => intro Base; rfl
  | succ n ih =>
    intro Base
    rw [entrySlots, ih, List.range_succ_eq_map, List.map_cons, List.map_map]
    simp only [Nat.mul_zero, Nat.add_zero, List.cons.injEq, true_and]
    apply List.map_congr_left
    intro i _
    simp only [Function.comp, Nat.mul_succ]
    omega

theorem mem_entrySlots {Base Size n a : Nat} (h : a ∈ entrySlots Base Size n) :
    ∃ i, i < n ∧ a = Base + Size * i := by
  rw [entrySlots_eq_range] at h
  obtain ⟨i, hi, rfl⟩ := List.mem_map.1 h
  exact ⟨i, List.mem_range.1 hi, rfl⟩

theorem examinedUpToMatch_append {α : Type} (p : α → Bool) :
    ∀ l : List α, ∃ rest, examinedUpToMatch p l ++ rest = l := by
  intro l
  induction l with
  | nil => exact ⟨[], rfl⟩
  | cons a t ih =>
    unfold examinedUpToMatch
    split
    · exact ⟨t, rfl⟩
    · obtain ⟨rest, hr⟩ := ih
      exact ⟨rest, by rw [List.cons_append, hr]⟩

theorem examinedUpToMatch_subset {α : Type} (p : α → Bool) (l : List α) (a : α)
    (h : a ∈ examinedUpToMatch p l) : a ∈ l := by
  obtain ⟨rest, hr⟩ := examinedUpToMatch_append p l
  rw [← hr]
  exact List.mem_append_left rest h

theorem examinedUpToMatch_of_none {α : Type} (p : α → Bool) :
    ∀ l : List α, (∀ a ∈ l, p a = false) → examinedUpToMatch p l = l := by
  intro l
  induction l with
  | nil => intro _; rfl
  | cons a t ih =>
    intro h
    unfold examinedUpToMatch
    rw [h a (List.mem_cons_self a t)]
    simp only [Bool.false_eq_true, if_false, List.cons.injEq, true_and]
    exact ih fun b hb => h b (List.mem_cons_of_mem a hb)

theorem find_map_none_of_all {α β : Type} (f : α → β) (q : β → Bool) (l : List α)
    (h : ∀ a ∈ l, q (f a) = false) : (l.map f).find? q = none := by
  rw [List.find?_eq_none]
  intro b hb
  obtain ⟨a, ha, rfl⟩ := List.mem_map.1 hb
  simp [h a ha]

/-- The loop of `ScanTableInRSDT` over `n` entries from `EntryPtr` on: the pointer it
returns and the entries it reads. -/
theorem ScanTableInRSDT_loop_spec (m : Memory) (Signature : Nat) :
    ∀ n EntryPtr,
      (ScanTableInRSDT.loop m Signature n EntryPtr).1
          = (((entrySlots EntryPtr 4 n).map (ReadUint32 m)).find?
              (fun Table => decide (ReadUint32 m Table = Signature))).getD 0
        ∧ entryReads (ScanTableInRSDT.loop m Signature n EntryPtr).2
          = (examinedUpToMatch (fun a => decide (ReadUint32 m (ReadUint32 m a) = Signature))
              (entrySlots EntryPtr 4 n)).map (fun a => (a, 4)) := by
  intro n
  induction n with
  | zero => intro EntryPtr; exact ⟨rfl, rfl⟩
  | succ n ih =>
    intro EntryPtr
    unfold ScanTableInRSDT.loop
    by_cases h : ReadUint32 m (ReadUint32 m EntryPtr) = Signature
    · simp [h, entrySlots, examinedUpToMatch, entryReads, List.find?]
    · obtain ⟨h1, h2⟩ := ih (EntryPtr + 4)
      simp [h, entrySlots, examinedUpToMatch, entryReads, List.find?, h1, h2]

/-- The loop of `ScanTableInXSDT` over `n` entries from index `Index` on, when none of
the entry addresses wraps around the address space. -/
theorem ScanTableInXSDT_loop_spec (m : Memory) (Signature BasePtr : Nat) :
    ∀ n Index, BasePtr + (Index + n) * 8 ≤ 2 ^ 64 →
      (ScanTableInXSDT.loop m Signature BasePtr n Index).1
          = (((entrySlots (BasePtr + Index * 8) 8 n).map (ReadUint64 m)).find?
              (fun Table => decide (ReadUint32 m Table = Signature))).getD 0
        ∧ entryReads (ScanTableInXSDT.loop m Signature BasePtr n Index).2
          = (examinedUpToMatch (fun a => decide (ReadUint32 m (ReadUint64 m a) = Signature))
              (entrySlots (BasePtr + Index * 8) 8 n)).map (fun a => (a, 8)) := by
  intro n
  induction n with
  | zero => intro Index _; exact ⟨rfl, rfl⟩
  | succ n ih =>
    intro Index hfit
    have hlt : (BasePtr + Index * 8) % 2 ^ 64 = BasePtr + Index * 8 :=
      Nat.mod_eq_of_lt (by omega)
    have hnext : BasePtr + Index * 8 + 8 = BasePtr + (Index + 1) * 8 := by omega
    unfold ScanTableInXSDT.loop
    rw [hlt]
    by_cases h : ReadUint32 m (ReadUint64 m (BasePtr + Index * 8)) = Signature
    · simp [h, entrySlots, examinedUpToMatch, entryReads, List.find?]
    · obtain ⟨h1, h2⟩ := ih (Index + 1) (by omega)
      simp [h, entrySlots, examinedUpToMatch, entryReads, List.find?, h1, h2, hnext]

/-- For a root table at least as long as its header, `EntryCount` is the number of
whole entries that fit behind the header. -/
theorem EntryCount_eq (Length Size : Nat)
    (h36 : sizeofEFI_ACPI_DESCRIPTION_HEADER ≤ Length) (h32 : Length < 2 ^ 32) :
    (((Length + 2 ^ 64 - sizeofEFI_ACPI_DESCRIPTION_HEADER) % 2 ^ 64) / Size) % 2 ^ 32
      = (Length - sizeofEFI_ACPI_DESCRIPTION_HEADER) / Size := by
  unfold sizeofEFI_ACPI_DESCRIPTION_HEADER at *
  have h1 : (Length + 2 ^ 64 - 36) % 2 ^ 64 = Length - 36 := by omega
  rw [h1]
  apply Nat.mod_eq_of_lt
  exact lt_of_le_of_lt (Nat.div_le_self _ _) (by omega)

end UefiLibAcpi

namespace UefiLibAcpi

/-! ## C12: the scans of the RSDT and of the XSDT -/

/-- The scan of an RSDT that is there and at least as long as its header. -/
theorem ScanTableInRSDT_spec (m : Memory) (Rsdt Signature : Nat) (hRsdt : Rsdt ≠ 0)
    (hLength : sizeofEFI_ACPI_DESCRIPTION_HEADER ≤ ReadUint32 m (Rsdt + 4)) :
    (ScanTableInRSDT m Rsdt Signature).1
        = (((entrySlots (Rsdt + 36) 4 ((ReadUint32 m (Rsdt + 4) - 36) / 4)).map
            (ReadUint32 m)).find? (fun Table => decide (ReadUint32 m Table = Signature))).getD 0
      ∧ entryReads (ScanTableInRSDT m Rsdt Signature).2
        = (examinedUpToMatch (fun a => decide (ReadUint32 m (ReadUint32 m a) = Signature))
            (entrySlots (Rsdt + 36) 4 ((ReadUint32 m (Rsdt + 4) - 36) / 4))).map
            (fun a => (a, 4)) := by
  have hc := EntryCount_eq (ReadUint32 m (Rsdt + 4)) 4 hLength (ReadUint32_lt m _)
  have hs := ScanTableInRSDT_loop_spec m Signature ((ReadUint32 m (Rsdt + 4) - 36) / 4)
    (Rsdt + 36)
  have he : ScanTableInRSDT m Rsdt Signature
      = ((ScanTableInRSDT.loop m Signature ((ReadUint32 m (Rsdt + 4) - 36) / 4) (Rsdt + 36)).1,
          Access.Length (Rsdt + 4)
            :: (ScanTableInRSDT.loop m Signature ((ReadUint32 m (Rsdt + 4) - 36) / 4)
                (Rsdt + 36)).2) := by
    unfold ScanTableInRSDT
    rw [if_neg hRsdt]
    show (_, _) = _
    rw [hc]
    rfl
  rw [he]
  exact hs

/-- The scan of an XSDT that is there, at least as long as its header, and inside
the address space. -/
theorem ScanTableInXSDT_spec (m : Memory) (Xsdt Signature : Nat) (hXsdt : Xsdt ≠ 0)
    (hLength : sizeofEFI_ACPI_DESCRIPTION_HEADER ≤ ReadUint32 m (Xsdt + 4))
    (hfit : Xsdt + ReadUint32 m (Xsdt + 4) ≤ 2 ^ 64) :
    (ScanTableInXSDT m Xsdt Signature).1
        = (((entrySlots (Xsdt + 36) 8 ((ReadUint32 m (Xsdt + 4) - 36) / 8)).map
            (ReadUint64 m)).find? (fun Table => decide (ReadUint32 m Table = Signature))).getD 0
      ∧ entryReads (ScanTableInXSDT m Xsdt Signature).2
        = (examinedUpToMatch (fun a => decide (ReadUint32 m (ReadUint64 m a) = Signature))
            (entrySlots (Xsdt + 36) 8 ((ReadUint32 m (Xsdt + 4) - 36) / 8))).map
            (fun a => (a, 8)) := by
  have h36 : (36 : Nat) ≤ ReadUint32 m (Xsdt + 4) := hLength
  have hdiv := Nat.div_mul_le_self (ReadUint32 m (Xsdt + 4) - 36) 8
  have hc := EntryCount_eq (ReadUint32 m (Xsdt + 4)) 8 hLength (ReadUint32_lt m _)
  have he : ScanTableInXSDT m Xsdt Signature
      = ((ScanTableInXSDT.loop m Signature ((Xsdt + 36) % 2 ^ 64)
            ((ReadUint32 m (Xsdt + 4) - 36) / 8) 0).1,
          Access.Length (Xsdt + 4)
            :: (ScanTableInXSDT.loop m Signature ((Xsdt + 36) % 2 ^ 64)
                ((ReadUint32 m (Xsdt + 4) - 36) / 8) 0).2) := by
    unfold ScanTableInXSDT
    rw [if_neg hXsdt]
    show (_, _) = _
    rw [hc]
    rfl
  rw [he]
  by_cases hn : (ReadUint32 m (Xsdt + 4) - 36) / 8 = 0
  · rw [hn]
    exact ⟨rfl, rfl⟩
  · have hlt : (Xsdt + 36) % 2 ^ 64 = Xsdt + 36 := Nat.mod_eq_of_lt (by omega)
    rw [hlt]
    have hs := ScanTableInXSDT_loop_spec m Signature (Xsdt + 36)
      ((ReadUint32 m (Xsdt + 4) - 36) / 8) 0 (by omega)
    rw [Nat.zero_mul, Nat.add_zero] at hs
    exact hs

/-- Every examined entry of a root table lies between the end of the header and the
declared length of the table. -/
theorem examined_within_length {Root Length Size : Nat} {p : Nat → Bool} {r : Nat × Nat}
    (h36 : 36 ≤ Length)
    (h : r ∈ (examinedUpToMatch p (entrySlots (Root + 36) Size ((Length - 36) / Size))).map
      (fun a => (a, Size))) :
    Root + 36 ≤ r.1 ∧ r.1 + r.2 ≤ Root + Length := by
  obtain ⟨a, ha, rfl⟩ := List.mem_map.1 h
  obtain ⟨i, hi, rfl⟩ := mem_entrySlots (examinedUpToMatch_subset p _ a ha)
  have h1 : Size * (i + 1) ≤ Size * ((Length - 36) / Size) := Nat.mul_le_mul_left Size hi
  have h2 : Size * ((Length - 36) / Size) ≤ Length - 36 := Nat.mul_div_le _ _
  have h3 : Size * (i + 1) = Size * i + Size := Nat.mul_succ Size i
  constructor
  · exact Nat.le_add_right _ _
  · show Root + 36 + Size * i + Size ≤ Root + Length
    omega

/-- C12.  Take a root table whose `Length` field is at least the size of the ACPI
description header and whose declared extent lies in the address space, and let `n`
be `(Length - 36) / 4` for `ScanTableInRSDT` and `(Length - 36) / 8` for
`ScanTableInXSDT`.  The scan returns the pointer in the first of the first `n`
entries whose table has the signature, and `NULL` when none of them has.  The
entries it reads are the entries from the first one on, in order, up to and
including that first match, and all `n` entries, no more, when there is no match;
every entry it reads lies between the end of the header and the declared `Length`.
For a `NULL` root table it returns `NULL` and reads nothing. -/
theorem ScanTable_first_match (m : Memory) (Root Signature : Nat)
    (hLength : sizeofEFI_ACPI_DESCRIPTION_HEADER ≤ ReadUint32 m (Root + 4))
    (hfit : Root + ReadUint32 m (Root + 4) ≤ 2 ^ 64) :
    (Root ≠ 0 →
      (ScanTableInRSDT m Root Signature).1
          = (((entrySlots (Root + 36) 4 ((ReadUint32 m (Root + 4) - 36) / 4)).map
              (ReadUint32 m)).find?
              (fun Table => decide (ReadUint32 m Table = Signature))).getD 0
        ∧ entryReads (ScanTableInRSDT m Root Signature).2
          = (examinedUpToMatch (fun a => decide (ReadUint32 m (ReadUint32 m a) = Signature))
              (entrySlots (Root + 36) 4 ((ReadUint32 m (Root + 4) - 36) / 4))).map
              (fun a => (a, 4))
        ∧ ((∀ a ∈ entrySlots (Root + 36) 4 ((ReadUint32 m (Root + 4) - 36) / 4),
              ReadUint32 m (ReadUint32 m a) ≠ Signature) →
            (ScanTableInRSDT m Root Signature).1 = 0
              ∧ entryReads (ScanTableInRSDT m Root Signature).2
                = (entrySlots (Root + 36) 4 ((ReadUint32 m (Root + 4) - 36) / 4)).map
                    (fun a => (a, 4)))
        ∧ ∀ r ∈ entryReads (ScanTableInRSDT m Root Signature).2,
            Root + 36 ≤ r.1 ∧ r.1 + r.2 ≤ Root + ReadUint32 m (Root + 4))
    ∧ (Root ≠ 0 →
      (ScanTableInXSDT m Root Signature).1
          = (((entrySlots (Root + 36) 8 ((ReadUint32 m (Root + 4) - 36) / 8)).map
              (ReadUint64 m)).find?
              (fun Table => decide (ReadUint32 m Table = Signature))).getD 0
        ∧ entryReads (ScanTableInXSDT m Root Signature).2
          = (examinedUpToMatch (fun a => decide (ReadUint32 m (ReadUint64 m a) = Signature))
              (entrySlots (Root + 36) 8 ((ReadUint32 m (Root + 4) - 36) / 8))).map
              (fun a => (a, 8))
        ∧ ((∀ a ∈ entrySlots (Root + 36) 8 ((ReadUint32 m (Root + 4) - 36) / 8),
              ReadUint32 m (ReadUint64 m a) ≠ Signature) →
            (ScanTableInXSDT m Root Signature).1 = 0
              ∧ entryReads (ScanTableInXSDT m Root Signature).2
                = (entrySlots (Root + 36) 8 ((ReadUint32 m (Root + 4) - 36) / 8)).map
                    (fun a => (a, 8)))
        ∧ ∀ r ∈ entryReads (ScanTableInXSDT m Root Signature).2,
            Root + 36 ≤ r.1 ∧ r.1 + r.2 ≤ Root + ReadUint32 m (Root + 4))
    ∧ (ScanTableInRSDT m 0 Signature = (0, []) ∧ ScanTableInXSDT m 0 Signature = (0, []))
    ∧ (∀ Base Size n, entrySlots Base Size n = (List.range n).map (fun i => Base + Size * i))
    ∧ (∀ (p : Nat → Bool) (l : List Nat), ∃ rest, examinedUpToMatch p l ++ rest = l) := by
  have h36 : (36 : Nat) ≤ ReadUint32 m (Root + 4) := hLength
  refine ⟨fun hRoot => ?_, fun hRoot => ?_, ⟨rfl, rfl⟩,
    fun Base Size n => entrySlots_eq_range Size n Base, fun p l => examinedUpToMatch_append p l⟩
  · obtain ⟨h1, h2⟩ := ScanTableInRSDT_spec m Root Signature hRoot hLength
    refine ⟨h1, h2, fun hnone => ⟨?_, ?_⟩, fun r hr => ?_⟩
    · rw [h1, find_map_none_of_all]
      · rfl
      · intro a ha
        simpa using hnone a ha
    · rw [h2, examinedUpToMatch_of_none]
      intro a ha
      simpa using hnone a ha
    · rw [h2] at hr
      exact examined_within_length h36 hr
  · obtain ⟨h1, h2⟩ := ScanTableInXSDT_spec m Root Signature hRoot hLength hfit
    refine ⟨h1, h2, fun hnone => ⟨?_, ?_⟩, fun r hr => ?_⟩
    · rw [h1, find_map_none_of_all]
      · rfl
      · intro a ha
        simpa using hnone a ha
    · rw [h2, examinedUpToMatch_of_none]
      intro a ha
      simpa using hnone a ha
    · rw [h2] at hr
      exact examined_within_length h36 hr

end UefiLibAcpi

namespace UefiLibAcpi

/-- C12, witness: the RSDT at `0x2000` and the XSDT at `0x3000` of the demo memory
each hold two entries; the scan for `APIC` reads both, in order, inside the table,
and returns the second pointer, `0x5000`. -/
theorem ScanTable_first_match_witness :
    (sizeofEFI_ACPI_DESCRIPTION_HEADER ≤ ReadUint32 (demoMemory 2) (0x2000 + 4)
      ∧ 0x2000 + ReadUint32 (demoMemory 2) (0x2000 + 4) ≤ 2 ^ 64)
    ∧ (ScanTableInRSDT (demoMemory 2) 0x2000 0x43495041).1 = 0x5000
    ∧ entryReads (ScanTableInRSDT (demoMemory 2) 0x2000 0x43495041).2
        = [(0x2024, 4), (0x2028, 4)]
    ∧ (∀ r ∈ entryReads (ScanTableInRSDT (demoMemory 2) 0x2000 0x43495041).2,
        0x2000 + 36 ≤ r.1 ∧ r.1 + r.2 ≤ 0x2000 + ReadUint32 (demoMemory 2) (0x2000 + 4))
    ∧ (ScanTableInXSDT (demoMemory 2) 0x3000 0x43495041).1 = 0x5000
    ∧ entryReads (ScanTableInXSDT (demoMemory 2) 0x3000 0x43495041).2
        = [(0x3024, 8), (0x302C, 8)]
    ∧ (∀ r ∈ entryReads (ScanTableInXSDT (demoMemory 2) 0x3000 0x43495041).2,
        0x3000 + 36 ≤ r.1 ∧ r.1 + r.2 ≤ 0x3000 + ReadUint32 (demoMemory 2) (0x3000 + 4)) :=
  ⟨⟨by decide!, by decide!⟩, by decide!, by decide!,
    ((ScanTable_first_match (demoMemory 2) 0x2000 0x43495041 (by decide!) (by decide!)).1
      (by decide)).2.2.2,
    by decide!, by decide!,
    ((ScanTable_first_match (demoMemory 2) 0x3000 0x43495041 (by decide!) (by decide!)).2.1
      (by decide)).2.2.2⟩

/-! ## C11: `EfiFindAcpiTableBySignature` -/

/-- A GUID that no entry of the configuration table carries leads to no table. -/
theorem FindAcpiTableInAcpiConfigurationTable_absent (s : System) (AcpiGuid Signature : Nat)
    (h : ∀ e ∈ s.ConfigurationTable, e.1 ≠ AcpiGuid) :
    FindAcpiTableInAcpiConfigurationTable s AcpiGuid Signature = 0 := by
  have hf : s.ConfigurationTable.find? (fun e => e.1 == AcpiGuid) = none := by
    rw [List.find?_eq_none]
    intro e he
    simpa using h e he
  simp [FindAcpiTableInAcpiConfigurationTable, EfiGetSystemConfigurationTable, hf]

/-- C11.  For every signature, `EfiFindAcpiTableBySignature` looks the table up
through the `gEfiAcpi20TableGuid` configuration table first and through the
`gEfiAcpi10TableGuid` configuration table second: it returns what the first lookup
found whenever that is not `NULL`, otherwise what the second lookup returns, and it
returns `NULL` exactly when both lookups return `NULL`; in particular it returns
`NULL` when the configuration table carries neither GUID. -/
theorem EfiFindAcpiTableBySignature_spec (s : System) (Signature : Nat) :
    (FindAcpiTableInAcpiConfigurationTable s gEfiAcpi20TableGuid Signature ≠ 0 →
        EfiFindAcpiTableBySignature s Signature
          = FindAcpiTableInAcpiConfigurationTable s gEfiAcpi20TableGuid Signature)
    ∧ (FindAcpiTableInAcpiConfigurationTable s gEfiAcpi20TableGuid Signature = 0 →
        EfiFindAcpiTableBySignature s Signature
          = FindAcpiTableInAcpiConfigurationTable s gEfiAcpi10TableGuid Signature)
    ∧ (EfiFindAcpiTableBySignature s Signature = 0
        ↔ FindAcpiTableInAcpiConfigurationTable s gEfiAcpi20TableGuid Signature = 0
          ∧ FindAcpiTableInAcpiConfigurationTable s gEfiAcpi10TableGuid Signature = 0)
    ∧ ((∀ e ∈ s.ConfigurationTable, e.1 ≠ gEfiAcpi20TableGuid ∧ e.1 ≠ gEfiAcpi10TableGuid) →
        EfiFindAcpiTableBySignature s Signature = 0) := by
  have h20 : FindAcpiTableInAcpiConfigurationTable s gEfiAcpi20TableGuid Signature ≠ 0 →
      EfiFindAcpiTableBySignature s Signature
        = FindAcpiTableInAcpiConfigurationTable s gEfiAcpi20TableGuid Signature := by
    intro h
    unfold EfiFindAcpiTableBySignature
    rw [if_pos h]
  have h10 : FindAcpiTableInAcpiConfigurationTable s gEfiAcpi20TableGuid Signature = 0 →
      EfiFindAcpiTableBySignature s Signature
        = FindAcpiTableInAcpiConfigurationTable s gEfiAcpi10TableGuid Signature := by
    intro h
    unfold EfiFindAcpiTableBySignature
    rw [if_neg (not_not.2 h)]
  refine ⟨h20, h10, ⟨fun h => ?_, fun h => ?_⟩, fun h => ?_⟩
  · by_cases hz : FindAcpiTableInAcpiConfigurationTable s gEfiAcpi20TableGuid Signature = 0
    · exact ⟨hz, by rw [← h10 hz]; exact h⟩
    · rw [h20 hz] at h
      exact absurd h hz
  · rw [h10 h.1]
    exact h.2
  · rw [h10 (FindAcpiTableInAcpiConfigurationTable_absent s _ _ fun e he => (h e he).1)]
    exact FindAcpiTableInAcpiConfigurationTable_absent s _ _ fun e he => (h e he).2

/-- C11, witness: on the system that publishes the ACPI 2.0 RSDP the MADT is found
through it at `0x5000` and the FACS through the FADT at `0x6000`; on the system that
publishes only an ACPI 1.0 RSDP the first lookup returns `NULL` and the MADT is
found through the second; without either GUID the result is `NULL`. -/
theorem EfiFindAcpiTableBySignature_spec_witness :
    (FindAcpiTableInAcpiConfigurationTable acpi20System gEfiAcpi20TableGuid 0x43495041 = 0x5000
      ∧ EfiFindAcpiTableBySignature acpi20System 0x43495041
        = FindAcpiTableInAcpiConfigurationTable acpi20System gEfiAcpi20TableGuid 0x43495041)
    ∧ EfiFindAcpiTableBySignature acpi20System 0x53434146 = 0x6000
    ∧ (FindAcpiTableInAcpiConfigurationTable acpi10System gEfiAcpi20TableGuid 0x43495041 = 0
      ∧ FindAcpiTableInAcpiConfigurationTable acpi10System gEfiAcpi10TableGuid 0x43495041
        = 0x5000
      ∧ EfiFindAcpiTableBySignature acpi10System 0x43495041
        = FindAcpiTableInAcpiConfigurationTable acpi10System gEfiAcpi10TableGuid 0x43495041)
    ∧ EfiFindAcpiTableBySignature noAcpiSystem 0x43495041 = 0 :=
  ⟨⟨by decide!, (EfiFindAcpiTableBySignature_spec acpi20System 0x43495041).1 (by decide!)⟩,
    by decide!,
    ⟨by decide!, by decide!,
      (EfiFindAcpiTableBySignature_spec acpi10System 0x43495041).2.1 (by decide!)⟩,
    (EfiFindAcpiTableBySignature_spec noAcpiSystem 0x43495041).2.2.2 (by decide!)⟩

end UefiLibAcpi
